import Mathlib

/-!
# The DNS-SD backend of gvfs (daemon/gvfsbackenddnssd.c)

A shallow embedding of the backend that turns services discovered through Avahi
into shortcut files of a virtual root directory, followed by theorems about it.

Conventions of the embedding.

* A C string is represented by its content, the list of the characters that
  precede the terminating NUL.  The code only ever compares characters with the
  ASCII characters backslash, dot, slash, equals sign and percent sign, so a
  character stands for one byte of the C string.
* A GList of pointers is a list of the values pointed to.
* The state a callback works on is passed in and the new state is returned.
* Library calls whose outcome is observed later (events sent to a monitor,
  replies reported on a job) append to a log kept in the object they are
  called on, oldest entry first.
* A function of the process in which the process can die, by a read through a
  NULL pointer, returns an Option: none is the death of the process, and a
  caller that gets none returns none.
-/

namespace DnsSd

/-! ## Strings and library helpers -/

/-- Content of a NUL-terminated C string. -/
abbrev CString := List Char

/-- One variadic argument handed to a printf-style function. A string argument
may be the NULL pointer. -/
inductive PrintfArg where
  | str (s : Option CString)
  | int (n : Int)
  deriving DecidableEq, Repr

/-- Decimal rendering of a signed integer, as the conversion d of printf does it. -/
def printf_decimal (n : Int) : CString :=
  if n < 0 then '-' :: Nat.toDigits 10 n.natAbs else Nat.toDigits 10 n.toNat

/-- The part of g_strdup_printf the backend uses: the conversions s and d,
every other character of the format copied. A NULL string argument is printed
as "(null)", which is what the C library underneath glib does. -/
def g_strdup_printf : CString → List PrintfArg → CString
  | [], _ => []
  | '%' :: 's' :: fmt, PrintfArg.str s :: args =>
    s.getD "(null)".toList ++ g_strdup_printf fmt args
  | '%' :: 'd' :: fmt, PrintfArg.int n :: args =>
    printf_decimal n ++ g_strdup_printf fmt args
  | c :: fmt, args => c :: g_strdup_printf fmt args

/-- Comparison of two strings that ignores the case of ASCII letters; true
when strcasecmp returns 0. -/
def strcasecmp_eq (a b : CString) : Bool :=
  a.map Char.toLower == b.map Char.toLower

/-- An AvahiStringList: the entries of a TXT record, each the text of one
entry ("key=value" or just "key"). The NULL pointer is the empty list. -/
abbrev AvahiStringList := List CString

/-- The avahi-common function avahi_string_list_find: the first entry whose
text is the key, or starts with the key followed by an equals sign, the case of
letters ignored. -/
def avahi_string_list_find (l : AvahiStringList) (key : CString) : Option CString :=
  l.find? (fun text =>
    strcasecmp_eq text key ||
      (strcasecmp_eq (text.take key.length) key && text.get? key.length == some '='))

/-- The value that avahi_string_list_get_pair hands back for an entry: the text
after the first equals sign, NULL when the entry has none. -/
def avahi_string_list_get_pair_value : CString → Option CString
  | [] => none
  | c :: text => if c = '=' then some text else avahi_string_list_get_pair_value text

/-! ## Avahi types -/

/-- The enum AvahiProtocol. -/
inductive AvahiProtocol where
  | AVAHI_PROTO_INET
  | AVAHI_PROTO_INET6
  | AVAHI_PROTO_UNSPEC
  deriving DecidableEq, Repr

/-- The enum AvahiResolverEvent. -/
inductive AvahiResolverEvent where
  | AVAHI_RESOLVER_FOUND
  | AVAHI_RESOLVER_FAILURE
  deriving DecidableEq, Repr

/-- The enum AvahiBrowserEvent. -/
inductive AvahiBrowserEvent where
  | AVAHI_BROWSER_NEW
  | AVAHI_BROWSER_REMOVE
  | AVAHI_BROWSER_CACHE_EXHAUSTED
  | AVAHI_BROWSER_ALL_FOR_NOW
  | AVAHI_BROWSER_FAILURE
  deriving DecidableEq, Repr

/-- An AvahiAddress: the address family and the octets of the address union
(4 octets for IPv4, 16 for IPv6), in network order. -/
structure AvahiAddress where
  proto : AvahiProtocol
  data : List Nat
  deriving DecidableEq, Repr

/-- Octet i of the address storage, data.ipv6.address[i] in the source. -/
def AvahiAddress.octet (address : AvahiAddress) (i : Nat) : Nat :=
  address.data.getD i 0

/-- A service browser held in the list of a backend, known by the service type
and the domain it was created for; the domain NULL is the default domain. -/
structure AvahiServiceBrowser where
  type : CString
  domain : Option CString
  deriving DecidableEq, Repr

/-! ## The static table and the data of the backend -/

/-- One row of the table dns_sd_types. -/
structure DnsSdType where
  type : CString
  method : CString
  icon : CString
  deriving DecidableEq, Repr

/-- The table dns_sd_types. -/
def dns_sd_types : List DnsSdType :=
  [ ⟨"_ftp._tcp".toList, "ftp".toList, "gnome-fs-ftp".toList⟩,
    ⟨"_webdav._tcp".toList, "dav".toList, "gnome-fs-share".toList⟩,
    ⟨"_webdavs._tcp".toList, "davs".toList, "gnome-fs-share".toList⟩,
    ⟨"_sftp-ssh._tcp".toList, "sftp".toList, "gnome-fs-ssh".toList⟩ ]

/-- A themed GIcon, given by the icon name passed to g_themed_icon_new. -/
structure GIcon where
  themed : CString
  deriving DecidableEq, Repr

/-- The struct LinkFile. -/
structure LinkFile where
  file_name : CString
  name : CString
  type : CString
  target_uri : CString
  icon : Option GIcon
  deriving DecidableEq, Repr

/-- The enum GFileMonitorEvent of gio. -/
inductive GFileMonitorEvent where
  | G_FILE_MONITOR_EVENT_CHANGED
  | G_FILE_MONITOR_EVENT_CHANGES_DONE_HINT
  | G_FILE_MONITOR_EVENT_DELETED
  | G_FILE_MONITOR_EVENT_CREATED
  | G_FILE_MONITOR_EVENT_ATTRIBUTE_CHANGED
  | G_FILE_MONITOR_EVENT_PRE_UNMOUNT
  | G_FILE_MONITOR_EVENT_UNMOUNTED
  deriving DecidableEq, Repr

/-- One call of g_vfs_monitor_emit_event: the event type and the two paths. -/
structure MonitorEvent where
  event_type : GFileMonitorEvent
  file_path : CString
  other_file_path : Option CString
  deriving DecidableEq, Repr

/-- A GVfsMonitor, known by the events emitted on it so far, oldest first. -/
structure GVfsMonitor where
  emitted : List MonitorEvent
  deriving DecidableEq, Repr

/-- The library call g_vfs_monitor_emit_event. -/
def g_vfs_monitor_emit_event (monitor : GVfsMonitor) (event_type : GFileMonitorEvent)
    (file_path : CString) (other_file_path : Option CString) : GVfsMonitor :=
  { monitor with emitted := monitor.emitted ++ [⟨event_type, file_path, other_file_path⟩] }

/-- The struct _GVfsBackendDnsSd (the fields the callbacks and the requests
read or write). -/
structure GVfsBackendDnsSd where
  root_monitor : GVfsMonitor
  domain : CString
  files : List LinkFile
  browsers : List AvahiServiceBrowser
  deriving DecidableEq, Repr

/-! ## Names, icons and link files -/

/-- The function get_icon_for_type. -/
def get_icon_for_type (type : CString) : GIcon :=
  match dns_sd_types.find? (fun row => row.type = type) with
  | some row => ⟨row.icon⟩
  | none => ⟨"text-x-generic".toList⟩

/-- The function get_method_for_type; none is the NULL pointer. -/
def get_method_for_type (type : CString) : Option CString :=
  match dns_sd_types.find? (fun row => row.type = type) with
  | some row => some row.method
  | none => none

/-- The while loop of encode_filename: p is the rest of the service name,
string the GString built so far. -/
def encode_filename_loop : CString → CString → CString
  | [], string => string
  | c :: p, string =>
    if c = '\\' then encode_filename_loop p (string ++ ['\\', '\\'])
    else if c = '.' then encode_filename_loop p (string ++ ['\\', '.'])
    else if c = '/' then encode_filename_loop p (string ++ ['\\', 's'])
    else encode_filename_loop p (string ++ [c])

/-- The function encode_filename. -/
def encode_filename (service type : CString) : CString :=
  let string : CString := []
  let string := encode_filename_loop service string
  let string := string ++ ['.']
  let string := string ++ type
  string

/-- The function link_file_new. The library function avahi_address_snprint is
the parameter snprint: given the size of the buffer and the address it yields
the text left in the buffer. The port is a uint16_t. -/
def link_file_new (snprint : Nat → AvahiAddress → CString)
    (name type _domain _host_name : CString) (protocol : AvahiProtocol)
    (address : AvahiAddress) (port : Nat) (txt : AvahiStringList) : LinkFile :=
  let file_name := encode_filename name type
  let icon := get_icon_for_type type
  let path : Option CString :=
    if txt ≠ [] then
      match avahi_string_list_find txt "path".toList with
      | some path_l => avahi_string_list_get_pair_value path_l
      | none => none
    else none
  let user_str : Option CString :=
    if txt ≠ [] then
      match avahi_string_list_find txt "u".toList with
      | some user_l =>
        -- g_strconcat returns NULL when its first argument is NULL
        (avahi_string_list_get_pair_value user_l).map (fun user => user ++ "@".toList)
      | none => none
    else none
  let path : CString := path.getD "/".toList
  let a := snprint 128 address
  let method := get_method_for_type type
  let target_uri :=
    if protocol = AvahiProtocol.AVAHI_PROTO_INET6 then
      g_strdup_printf "%s://%s[%s]:%d%s".toList
        [.str method, .str (some (user_str.getD [])), .str (some a),
          .int ((port % 65536 : Nat) : Int), .str (some path)]
    else
      g_strdup_printf "%s://%s%s:%d%s".toList
        [.str method, .str (some (user_str.getD [])), .str (some a),
          .int ((port % 65536 : Nat) : Int), .str (some path)]
  { file_name := file_name, name := name, type := type, target_uri := target_uri,
    icon := some icon }

/-- The function lookup_link_file_by_name_and_type; none is the NULL pointer. -/
def lookup_link_file_by_name_and_type (backend : GVfsBackendDnsSd)
    (name type : CString) : Option LinkFile :=
  backend.files.find? (fun file => file.name = name ∧ file.type = type)

/-! ## Requests: jobs, file infos, lookup -/

/-- The codes of GIOErrorEnum the backend reports. -/
inductive GIOErrorEnum where
  | G_IO_ERROR_FAILED
  | G_IO_ERROR_NOT_FOUND
  | G_IO_ERROR_NOT_DIRECTORY
  | G_IO_ERROR_INVALID_ARGUMENT
  | G_IO_ERROR_NOT_SUPPORTED
  deriving DecidableEq, Repr

/-- One outcome reported on a job: a call of g_vfs_job_failed with its error
code and message, or a call of g_vfs_job_succeeded. -/
inductive JobReport where
  | failed (code : GIOErrorEnum) (message : String)
  | succeeded
  deriving DecidableEq, Repr

/-- A GVfsJob, known by the outcomes reported on it so far, oldest first. -/
structure GVfsJob where
  reports : List JobReport
  deriving DecidableEq, Repr

/-- The library call g_vfs_job_failed with the error domain G_IO_ERROR. -/
def g_vfs_job_failed (job : GVfsJob) (code : GIOErrorEnum) (message : String) : GVfsJob :=
  { job with reports := job.reports ++ [JobReport.failed code message] }

/-- The library call g_vfs_job_succeeded. -/
def g_vfs_job_succeeded (job : GVfsJob) : GVfsJob :=
  { job with reports := job.reports ++ [JobReport.succeeded] }

/-- The error codes of the failures reported on a job, oldest first. -/
def GVfsJob.failures (job : GVfsJob) : List GIOErrorEnum :=
  job.reports.filterMap (fun r =>
    match r with
    | JobReport.failed code _ => some code
    | JobReport.succeeded => none)

/-- The enum GFileType, the two values the backend sets. -/
inductive GFileType where
  | G_FILE_TYPE_DIRECTORY
  | G_FILE_TYPE_SHORTCUT
  deriving DecidableEq, Repr

/-- A GFileInfo, known by the attributes set on it; none is an attribute that
was not set. -/
structure GFileInfo where
  name : Option CString
  display_name : Option CString
  icon : Option GIcon
  file_type : Option GFileType
  size : Option Nat
  content_type : Option CString
  access_can_write : Option Bool
  access_can_delete : Option Bool
  access_can_trash : Option Bool
  standard_is_virtual : Option Bool
  standard_target_uri : Option CString
  deriving DecidableEq, Repr

/-- The result of g_file_info_new: no attribute set. -/
def g_file_info_new : GFileInfo :=
  { name := none, display_name := none, icon := none, file_type := none, size := none,
    content_type := none, access_can_write := none, access_can_delete := none,
    access_can_trash := none, standard_is_virtual := none, standard_target_uri := none }

/-- What a LinkFile pointer returned by lookup_link_file points to: nothing
(NULL), the static root, or a file of the backend. -/
inductive LinkFilePtr where
  | null
  | root
  | file (f : LinkFile)
  deriving DecidableEq, Repr

/-- The function lookup_link_file, returning the pointer and the job. -/
def lookup_link_file (backend : GVfsBackendDnsSd) (job : GVfsJob)
    (file_name : CString) : LinkFilePtr × GVfsJob :=
  let out : LinkFilePtr × GVfsJob :=
    (LinkFilePtr.null,
      g_vfs_job_failed job GIOErrorEnum.G_IO_ERROR_NOT_FOUND "File doesn't exist")
  if file_name.head? ≠ some '/' then out
  else
    let file_name := file_name.dropWhile (fun c => c = '/')
    if file_name = [] then (LinkFilePtr.root, job)
    else if '/' ∈ file_name then out
    else
      match backend.files.find? (fun file => file.file_name = file_name) with
      | some file => (LinkFilePtr.file file, job)
      | none => out

/-- The function file_info_from_file, called with a file that is not NULL, so
that its entry check passes. -/
def file_info_from_file (file : LinkFile) (info : GFileInfo) : GFileInfo :=
  let info := { info with name := some file.file_name }
  let info := { info with display_name := some file.name }
  let info := match file.icon with
    | some icon => { info with icon := some icon }
    | none => info
  let info := { info with file_type := some GFileType.G_FILE_TYPE_SHORTCUT }
  let info := { info with size := some 0 }
  let info := { info with access_can_write := some false }
  let info := { info with access_can_delete := some false }
  let info := { info with access_can_trash := some false }
  let info := { info with standard_is_virtual := some true }
  { info with standard_target_uri := some file.target_uri }

/-- The function try_query_info, returning the job and the file info. -/
def try_query_info (backend : GVfsBackendDnsSd) (job : GVfsJob) (file_name : CString)
    (info : GFileInfo) : GVfsJob × GFileInfo :=
  match lookup_link_file backend job file_name with
  | (LinkFilePtr.root, job) =>
    let info := { info with name := some "/".toList }
    let info := { info with file_type := some GFileType.G_FILE_TYPE_DIRECTORY }
    let info := { info with display_name := some "dns-sd".toList }
    let icon : GIcon := ⟨"network-workgroup".toList⟩
    let info := { info with icon := some icon }
    let info := { info with access_can_write := some false }
    let info := { info with access_can_delete := some false }
    let info := { info with access_can_trash := some false }
    let info := { info with content_type := some "inode/directory".toList }
    (g_vfs_job_succeeded job, info)
  | (LinkFilePtr.file file, job) =>
    let info := file_info_from_file file info
    (g_vfs_job_succeeded job, info)
  | (LinkFilePtr.null, job) => (job, info)

/-- A GVfsJobCreateMonitor: the job and the monitor set on it, if any. -/
structure GVfsJobCreateMonitor where
  job : GVfsJob
  monitor : Option GVfsMonitor
  deriving DecidableEq, Repr

/-- The function try_create_monitor. -/
def try_create_monitor (backend : GVfsBackendDnsSd) (job : GVfsJobCreateMonitor)
    (file_name : CString) : GVfsJobCreateMonitor :=
  match lookup_link_file backend job.job file_name with
  | (LinkFilePtr.root, j) =>
    let job := { job with job := j, monitor := some backend.root_monitor }
    { job with job := g_vfs_job_succeeded job.job }
  | (_, j) =>
    let j := g_vfs_job_failed j GIOErrorEnum.G_IO_ERROR_NOT_SUPPORTED
      "Can't monitor file or directory."
    { job with job := j }

/-! ## The Avahi callbacks -/

/-- The arguments Avahi passes to resolve_callback, apart from the resolver
object, the interface index and the lookup flags, which the callback does not
read, and the user data, which is the backend. -/
structure ResolveResult where
  protocol : AvahiProtocol
  event : AvahiResolverEvent
  name : CString
  type : CString
  domain : CString
  host_name : CString
  address : AvahiAddress
  port : Nat
  txt : AvahiStringList
  deriving DecidableEq, Repr

/-- The function resolve_callback. -/
def resolve_callback (snprint : Nat → AvahiAddress → CString) (r : ResolveResult)
    (backend : GVfsBackendDnsSd) : GVfsBackendDnsSd :=
  if r.event = AvahiResolverEvent.AVAHI_RESOLVER_FAILURE then backend
  else if r.address.proto = AvahiProtocol.AVAHI_PROTO_INET6 ∧
      r.address.octet 0 = 0xfe ∧ r.address.octet 1 = 0x80 then backend
  else
    match lookup_link_file_by_name_and_type backend r.name r.type with
    | some _ => backend
    | none =>
      let file := link_file_new snprint r.name r.type r.domain r.host_name r.protocol
        r.address r.port r.txt
      let backend := { backend with files := file :: backend.files }
      let path := "/".toList ++ file.file_name
      { backend with
        root_monitor := g_vfs_monitor_emit_event backend.root_monitor
          GFileMonitorEvent.G_FILE_MONITOR_EVENT_CREATED path none }

/-- The arguments Avahi passes to browse_callback, apart from the browser
object and the lookup flags, which the callback does not read, and the user
data, which is the backend. -/
structure BrowseEvent where
  interface : Int
  protocol : AvahiProtocol
  event : AvahiBrowserEvent
  name : CString
  type : CString
  domain : CString
  deriving DecidableEq, Repr

/-- The function browse_callback, as it acts on the backend. For a new
service it asks the client for a resolver, whose answer arrives later as a call
of resolve_callback; that request reads the process-wide client and leaves the
backend as it is. For a removed service g_list_remove drops the first node that
holds the pointer found by the lookup; the file found is the first entry with
its name and type, so this is the first entry equal to it. -/
def browse_callback (e : BrowseEvent) (backend : GVfsBackendDnsSd) : GVfsBackendDnsSd :=
  match e.event with
  | AvahiBrowserEvent.AVAHI_BROWSER_FAILURE => backend
  | AvahiBrowserEvent.AVAHI_BROWSER_NEW => backend
  | AvahiBrowserEvent.AVAHI_BROWSER_REMOVE =>
    match lookup_link_file_by_name_and_type backend e.name e.type with
    | some file =>
      let backend := { backend with files := backend.files.erase file }
      let path := "/".toList ++ file.file_name
      { backend with
        root_monitor := g_vfs_monitor_emit_event backend.root_monitor
          GFileMonitorEvent.G_FILE_MONITOR_EVENT_DELETED path none }
    | none => backend
  | AvahiBrowserEvent.AVAHI_BROWSER_ALL_FOR_NOW => backend
  | AvahiBrowserEvent.AVAHI_BROWSER_CACHE_EXHAUSTED => backend

/-- One callback delivered to a backend by the Avahi main loop. -/
inductive Delivery where
  | resolve (r : ResolveResult)
  | browse (e : BrowseEvent)
  deriving DecidableEq, Repr

/-- The backend after one delivery. -/
def deliver (snprint : Nat → AvahiAddress → CString) (backend : GVfsBackendDnsSd) :
    Delivery → GVfsBackendDnsSd
  | Delivery.resolve r => resolve_callback snprint r backend
  | Delivery.browse e => browse_callback e backend

/-- The backend after a sequence of deliveries, handled one after the other. -/
def deliver_all (snprint : Nat → AvahiAddress → CString) (backend : GVfsBackendDnsSd)
    (ds : List Delivery) : GVfsBackendDnsSd :=
  ds.foldl (deliver snprint) backend

/-! ## The name encoding as the specification words it -/

/-- The escape of one character of an instance name in the words of the
specification: a backslash becomes two backslashes, a dot becomes a backslash
and a dot, a slash becomes a backslash and the letter s, every other character
is copied. -/
def spec_escape_char (c : Char) : CString :=
  if c = '\\' then ['\\', '\\']
  else if c = '.' then ['\\', '.']
  else if c = '/' then ['\\', 's']
  else [c]

/-- The character-by-character escape of an instance name. -/
def spec_escape_name (name : CString) : CString :=
  name.flatMap spec_escape_char

/-- The path segment in the words of the specification: the escaped name, one
dot, the service type as it is. -/
def spec_encode (name type : CString) : CString :=
  spec_escape_name name ++ ['.'] ++ type

/-! ## Vocabulary of the claims about the store and the monitor events -/

/-- The key of an entry: its instance name and its service type. -/
def LinkFile.key (f : LinkFile) : CString × CString :=
  (f.name, f.type)

/-- The entries of the backend that have the given instance name and service type. -/
def entries_for (backend : GVfsBackendDnsSd) (name type : CString) : List LinkFile :=
  backend.files.filter (fun f => f.name = name ∧ f.type = type)

/-- The key is present in the store: the lookup by name and type finds an entry. -/
def present (backend : GVfsBackendDnsSd) (name type : CString) : Bool :=
  (lookup_link_file_by_name_and_type backend name type).isSome

/-- The path under which the events of a key are emitted: a slash followed by
the file name of the key. -/
def key_path (name type : CString) : CString :=
  "/".toList ++ encode_filename name type

/-- The types of the monitor events emitted so far that carry the path of the
key, oldest first. -/
def events_for (backend : GVfsBackendDnsSd) (name type : CString) : List GFileMonitorEvent :=
  (backend.root_monitor.emitted.filter (fun ev => ev.file_path = key_path name type)).map
    (fun ev => ev.event_type)

/-- The number of created events emitted for the key. -/
def created_count (backend : GVfsBackendDnsSd) (name type : CString) : Nat :=
  (events_for backend name type).count GFileMonitorEvent.G_FILE_MONITOR_EVENT_CREATED

/-- The number of deleted events emitted for the key. -/
def deleted_count (backend : GVfsBackendDnsSd) (name type : CString) : Nat :=
  (events_for backend name type).count GFileMonitorEvent.G_FILE_MONITOR_EVENT_DELETED

/-- The events are created and deleted events only and alternate strictly; the
flag tells whether a created event is pending, so that the next event has to be
a deleted one. From the flag false the list reads created, deleted, created
and so on. -/
def strictly_alternates : Bool → List GFileMonitorEvent → Bool
  | _, [] => true
  | pending, e :: es =>
    if e = GFileMonitorEvent.G_FILE_MONITOR_EVENT_CREATED then
      !pending && strictly_alternates true es
    else if e = GFileMonitorEvent.G_FILE_MONITOR_EVENT_DELETED then
      pending && strictly_alternates false es
    else false

/-- The flag after the events: whether the last created or deleted event was a
created one. -/
def end_state : Bool → List GFileMonitorEvent → Bool
  | pending, [] => pending
  | pending, e :: es =>
    end_state
      (if e = GFileMonitorEvent.G_FILE_MONITOR_EVENT_CREATED then true
        else if e = GFileMonitorEvent.G_FILE_MONITOR_EVENT_DELETED then false
        else pending) es

/-- The invariant the callbacks keep: every entry is named by the encoding of
its key, no two entries share a key, and for every key the events emitted for
it alternate, starting with a created event, the last one being a created event
exactly when the key is in the store. -/
structure StoreInv (b : GVfsBackendDnsSd) : Prop where
  file_names : ∀ f ∈ b.files, f.file_name = encode_filename f.name f.type
  nodup : (b.files.map LinkFile.key).Nodup
  alternates : ∀ n t, strictly_alternates false (events_for b n t) = true
  state : ∀ n t, end_state false (events_for b n t) = true ↔
    (n, t) ∈ b.files.map LinkFile.key

/-! ## Concrete inputs used by the examples -/

/-- The address 192.0.2.5. -/
def sample_ipv4 : AvahiAddress :=
  ⟨AvahiProtocol.AVAHI_PROTO_INET, [192, 0, 2, 5]⟩

/-- The address 2001:db8::1. -/
def sample_ipv6 : AvahiAddress :=
  ⟨AvahiProtocol.AVAHI_PROTO_INET6, [0x20, 0x01, 0x0d, 0xb8, 0, 0, 0, 0, 0, 0, 0, 0, 0, 0, 0, 1]⟩

/-- The link-local address fe80::1. -/
def sample_link_local : AvahiAddress :=
  ⟨AvahiProtocol.AVAHI_PROTO_INET6, [0xfe, 0x80, 0, 0, 0, 0, 0, 0, 0, 0, 0, 0, 0, 0, 0, 1]⟩

/-- The text avahi_address_snprint leaves in the buffer for the addresses of
the examples. -/
def sample_snprint (_length : Nat) (address : AvahiAddress) : CString :=
  if address = sample_ipv4 then "192.0.2.5".toList
  else if address = sample_ipv6 then "2001:db8::1".toList
  else if address = sample_link_local then "fe80::1".toList
  else []

/-- A mounted backend for the domain local with no entry and no event emitted. -/
def sample_backend : GVfsBackendDnsSd :=
  { root_monitor := ⟨[]⟩, domain := "local".toList, files := [], browsers := [] }

/-- A resolve result for the service "Files" of type _sftp-ssh._tcp at
192.0.2.5, port 22, with the attribute path=/home/alice. -/
def sample_resolve : ResolveResult :=
  { protocol := AvahiProtocol.AVAHI_PROTO_INET,
    event := AvahiResolverEvent.AVAHI_RESOLVER_FOUND,
    name := "Files".toList, type := "_sftp-ssh._tcp".toList, domain := "local".toList,
    host_name := "alice.local".toList, address := sample_ipv4, port := 22,
    txt := ["path=/home/alice".toList] }

/-- The browse event that reports the service of sample_resolve as removed. -/
def sample_remove : BrowseEvent :=
  { interface := 2, protocol := AvahiProtocol.AVAHI_PROTO_INET,
    event := AvahiBrowserEvent.AVAHI_BROWSER_REMOVE,
    name := "Files".toList, type := "_sftp-ssh._tcp".toList, domain := "local".toList }

/-- The service is resolved twice, removed, and resolved again. -/
def sample_deliveries : List Delivery :=
  [Delivery.resolve sample_resolve, Delivery.resolve sample_resolve,
    Delivery.browse sample_remove, Delivery.resolve sample_resolve]

/-! ## Vocabulary of the claims about the connection URI -/

/-- The value of the attribute with the given key in a TXT record: the value of
the first entry with that key, none when there is no such entry or it has no
value. -/
def txt_attribute (txt : AvahiStringList) (key : CString) : Option CString :=
  (avahi_string_list_find txt key).bind avahi_string_list_get_pair_value

/-- The user part of the URI in the words of the specification: the value of
the attribute u followed by an at sign when the attribute is there, nothing
otherwise. -/
def spec_uri_user (txt : AvahiStringList) : CString :=
  match txt_attribute txt "u".toList with
  | some user => user ++ "@".toList
  | none => []

/-- The path part of the URI in the words of the specification: the value of
the attribute path when it is there, a single slash otherwise. -/
def spec_uri_path (txt : AvahiStringList) : CString :=
  match txt_attribute txt "path".toList with
  | some path => path
  | none => "/".toList

/-! ## Enumerating the root -/

/-- A GVfsJobEnumerate: the job, the file infos added to it with
g_vfs_job_enumerate_add_info, oldest first, and whether g_vfs_job_enumerate_done
has been called. -/
structure GVfsJobEnumerate where
  job : GVfsJob
  infos : List GFileInfo
  done : Bool
  deriving DecidableEq, Repr

/-- The library call g_vfs_job_enumerate_add_info. -/
def g_vfs_job_enumerate_add_info (job : GVfsJobEnumerate) (info : GFileInfo) :
    GVfsJobEnumerate :=
  { job with infos := job.infos ++ [info] }

/-- The library call g_vfs_job_enumerate_done. -/
def g_vfs_job_enumerate_done (job : GVfsJobEnumerate) : GVfsJobEnumerate :=
  { job with done := true }

/-- The function try_enumerate. -/
def try_enumerate (backend : GVfsBackendDnsSd) (job : GVfsJobEnumerate)
    (file_name : CString) : GVfsJobEnumerate :=
  match lookup_link_file backend job.job file_name with
  | (LinkFilePtr.root, j) =>
    let job := { job with job := g_vfs_job_succeeded j }
    let job := backend.files.foldl
      (fun job file =>
        let info := g_file_info_new
        let info := file_info_from_file file info
        g_vfs_job_enumerate_add_info job info)
      job
    g_vfs_job_enumerate_done job
  | (LinkFilePtr.file _, j) =>
    let j := g_vfs_job_failed j GIOErrorEnum.G_IO_ERROR_NOT_DIRECTORY
      "The file is not a directory"
    { job with job := j }
  | (LinkFilePtr.null, j) => { job with job := j }

/-! ## Vocabulary of the claims about resolve results -/

/-- The resolve result is one resolve_callback drops before it looks at the
store: a failure of the resolver, or an IPv6 address whose first two octets are
0xfe and 0x80. -/
def ResolveResult.dropped (r : ResolveResult) : Prop :=
  r.event = AvahiResolverEvent.AVAHI_RESOLVER_FAILURE ∨
    (r.address.proto = AvahiProtocol.AVAHI_PROTO_INET6 ∧
      r.address.octet 0 = 0xfe ∧ r.address.octet 1 = 0x80)

instance (r : ResolveResult) : Decidable r.dropped := by
  unfold ResolveResult.dropped
  infer_instance

/-! ## The process-wide state and the Avahi client

The static variables of the source file and the backend objects form the state
of the daemon process. A backend is referred to by its position in the list
dnssd_backends, which stands for the pointer the source passes around; a new
backend is put at position 0 by g_list_prepend.

What the Avahi library does when the daemon calls it is written down in the
state as well: the outcomes of the coming calls of avahi_client_new and of
avahi_service_browser_new. -/

/-- The enum AvahiClientState. -/
inductive AvahiClientState where
  | AVAHI_CLIENT_S_REGISTERING
  | AVAHI_CLIENT_S_RUNNING
  | AVAHI_CLIENT_S_COLLISION
  | AVAHI_CLIENT_FAILURE
  | AVAHI_CLIENT_CONNECTING
  deriving DecidableEq, Repr

/-- The Avahi error codes the model tells apart. -/
inductive AvahiErrorCode where
  | AVAHI_OK
  | AVAHI_ERR_FAILURE
  | AVAHI_ERR_DISCONNECTED
  | AVAHI_ERR_NO_MEMORY
  | AVAHI_ERR_NO_DAEMON
  | AVAHI_ERR_DBUS_ERROR
  deriving DecidableEq, Repr

/-- An AvahiClient object, known by a number that tells the objects apart and
by the error code avahi_client_errno returns for it. -/
structure AvahiClient where
  id : Nat
  errno : AvahiErrorCode
  deriving DecidableEq, Repr

/-- A GMountSpec: the mount type and the items set on it, latest first. -/
structure GMountSpec where
  mount_type : CString
  items : List (CString × CString)
  deriving DecidableEq, Repr

/-- The library call g_mount_spec_new. -/
def g_mount_spec_new (mount_type : CString) : GMountSpec :=
  { mount_type := mount_type, items := [] }

/-- The library call g_mount_spec_set: the value replaces an earlier one. -/
def g_mount_spec_set (spec : GMountSpec) (key value : CString) : GMountSpec :=
  { spec with items := (key, value) :: spec.items.filter (fun item => item.1 ≠ key) }

/-- The library call g_mount_spec_get; none is the NULL pointer. -/
def g_mount_spec_get (spec : GMountSpec) (key : CString) : Option CString :=
  (spec.items.find? (fun item => item.1 = key)).map (fun item => item.2)

/-- The struct _GVfsBackendDnsSd as the process holds it from
g_vfs_backend_dns_sd_init on: until try_mount has set them, the domain, the mount
spec and the root monitor are NULL. -/
structure BackendObject where
  root_monitor : Option GVfsMonitor
  domain : Option CString
  mount_spec : Option GMountSpec
  files : List LinkFile
  browsers : List AvahiServiceBrowser
  deriving DecidableEq, Repr

/-- The backend as the callbacks and the requests see it once it is mounted,
that is once its domain and its root monitor are set. -/
def BackendObject.mounted (o : BackendObject) : Option GVfsBackendDnsSd :=
  match o.root_monitor, o.domain with
  | some root_monitor, some domain =>
    some { root_monitor := root_monitor, domain := domain, files := o.files,
           browsers := o.browsers }
  | _, _ => none

/-- The object after a callback has worked on the mounted backend. -/
def BackendObject.put (o : BackendObject) (b : GVfsBackendDnsSd) : BackendObject :=
  { o with
    root_monitor := some b.root_monitor, domain := some b.domain, files := b.files,
    browsers := b.browsers }

/-- What one call of avahi_client_new does: the client object it allocates, the
states it passes to the client callback before it returns, and the error with
which it fails, in which case it frees the object and returns NULL. -/
structure ClientNew where
  client : AvahiClient
  notified : List AvahiClientState
  error : Option AvahiErrorCode
  deriving DecidableEq, Repr

/-- The state of the daemon process and of the library around it.

* global_client, avahi_initialized, dnssd_backends: the static variables of the
  source file; glib_poll: the static variable of get_global_avahi_client, true
  once the poll object exists.
* client_new_script: what the coming calls of avahi_client_new do, next call
  first; a call made when the script is used up fails and notifies nothing.
* client_new_calls: the number of calls of avahi_client_new made so far.
* browser_new_script: whether the coming calls of avahi_service_browser_new
  succeed, next call first; a call made when the script is used up succeeds.
* freed_clients: the clients the source hands to avahi_client_free, oldest
  first. -/
structure Daemon where
  global_client : Option AvahiClient
  avahi_initialized : Bool
  glib_poll : Bool
  dnssd_backends : List BackendObject
  client_new_script : List ClientNew
  client_new_calls : Nat
  browser_new_script : List Bool
  freed_clients : List AvahiClient
  deriving DecidableEq, Repr

/-- The daemon with the backend at position k replaced by f of it. -/
def Daemon.modify_backend (d : Daemon) (k : Nat) (f : BackendObject → BackendObject) : Daemon :=
  { d with dnssd_backends := d.dnssd_backends.modify f k }

/-- The library call avahi_service_browser_new, returning the browser, NULL when
the creation fails. Without a client no browser is created. -/
def avahi_service_browser_new (client : Option AvahiClient) (type : CString)
    (domain : Option CString) (d : Daemon) : Option AvahiServiceBrowser × Daemon :=
  match client with
  | none => (none, d)
  | some _ =>
    match d.browser_new_script with
    | [] => (some ⟨type, domain⟩, d)
    | ok :: rest =>
      (if ok then some ⟨type, domain⟩ else none, { d with browser_new_script := rest })

/-- The function browse_type for the backend at position k, with the function
that stands for its call of get_global_avahi_client passed in. The source hands
backend->domain to strcmp without testing it for NULL: for a backend whose
domain try_mount has not set, the call reads through the NULL pointer and the
process dies. The result none stands for the death of the process, here and in
every function that calls this one. -/
def browse_type_with (get_client : Daemon → Option (Option AvahiClient × Daemon)) (k : Nat)
    (type : CString) (d : Daemon) : Option Daemon :=
  match get_client d with
  | none => none
  | some (client, d) =>
    match d.dnssd_backends[k]? with
    | none => some d
    | some backend =>
      match backend.domain with
      | none => none
      | some name =>
        let domain : Option CString := if name ≠ "local".toList then some name else none
        let (sb, d) := avahi_service_browser_new client type domain d
        match sb with
        | none => some d
        | some sb =>
          some (d.modify_backend k
            (fun backend => { backend with browsers := sb :: backend.browsers }))

/-- The function add_browsers for the backend at position k, with the function
that stands for get_global_avahi_client passed in. -/
def add_browsers_with (get_client : Daemon → Option (Option AvahiClient × Daemon)) (k : Nat)
    (d : Daemon) : Option Daemon :=
  dns_sd_types.foldlM (fun d row => browse_type_with get_client k row.type d) d

/-- The function remove_browsers. -/
def remove_browsers (backend : BackendObject) : BackendObject :=
  { backend with browsers := [] }

/-- The function avahi_client_callback, with the function that stands for
get_global_avahi_client passed in. The two g_list_foreach calls visit the
backends of dnssd_backends from position 0 on. -/
def avahi_client_callback_with (get_client : Daemon → Option (Option AvahiClient × Daemon))
    (client : AvahiClient) (state : AvahiClientState) (d : Daemon) : Option Daemon :=
  let d := if d.global_client = none then { d with global_client := some client } else d
  if state = AvahiClientState.AVAHI_CLIENT_FAILURE then
    if client.errno = AvahiErrorCode.AVAHI_ERR_DISCONNECTED then
      let d := { d with dnssd_backends := d.dnssd_backends.map remove_browsers }
      let d := { d with freed_clients := d.freed_clients ++ [client] }
      let d := { d with global_client := none }
      let d := { d with avahi_initialized := false }
      match get_client d with
      | none => none
      | some (_, d) => some d
    else some d
  else if state = AvahiClientState.AVAHI_CLIENT_S_RUNNING then
    (List.range d.dnssd_backends.length).foldlM
      (fun d k => add_browsers_with get_client k d) d
  else some d

/-- The library call avahi_client_new, with the client callback the source
hands to it: the call is counted, the next entry of the script is taken, the
callback is called with the states of the entry, and the client of the entry is
returned, or NULL when the entry says that the constructor fails or when the
script is used up. -/
def avahi_client_new (callback : AvahiClient → AvahiClientState → Daemon → Option Daemon)
    (d : Daemon) : Option (Option AvahiClient × Daemon) :=
  let d := { d with client_new_calls := d.client_new_calls + 1 }
  match d.client_new_script with
  | [] => some (none, d)
  | outcome :: rest =>
    let d := { d with client_new_script := rest }
    match outcome.notified.foldlM (fun d state => callback outcome.client state d) d with
    | none => none
    | some d =>
      let client : Option AvahiClient :=
        match outcome.error with
        | none => some outcome.client
        | some _ => none
      some (client, d)

/-- The function get_global_avahi_client, returning the client, NULL when there
is none, with the function that stands for its call of avahi_client_new passed
in. -/
def get_global_avahi_client_with
    (client_new : Daemon → Option (Option AvahiClient × Daemon)) (d : Daemon) :
    Option (Option AvahiClient × Daemon) :=
  if d.avahi_initialized = false then
    let d := { d with avahi_initialized := true }
    let d := if d.glib_poll = false then { d with glib_poll := true } else d
    match client_new d with
    | none => none
    | some (client, d) =>
      let d := { d with global_client := client }
      if d.global_client = none then some (none, d)
      else some (d.global_client, d)
  else some (d.global_client, d)

/-- The functions get_global_avahi_client and avahi_client_callback call each
other through avahi_client_new: the constructor calls the callback, and the
callback calls get_global_avahi_client. The number says how deeply constructor
calls may be nested; a constructor call beyond that depth counts as one made
when the script is used up. -/
def get_global_avahi_client_fuel : Nat → Daemon → Option (Option AvahiClient × Daemon)
  | 0, d =>
    get_global_avahi_client_with
      (fun d => some (none, { d with client_new_calls := d.client_new_calls + 1 })) d
  | fuel + 1, d =>
    get_global_avahi_client_with
      (avahi_client_new (avahi_client_callback_with (get_global_avahi_client_fuel fuel))) d

/-- The function get_global_avahi_client. Every nested constructor call uses up
one entry of the script, so the length of the script bounds the nesting; any
greater depth gives the same result (get_global_avahi_client_eq_fuel). -/
def get_global_avahi_client (d : Daemon) : Option (Option AvahiClient × Daemon) :=
  get_global_avahi_client_fuel d.client_new_script.length d

/-- The function avahi_client_callback. -/
def avahi_client_callback (client : AvahiClient) (state : AvahiClientState) (d : Daemon) :
    Option Daemon :=
  avahi_client_callback_with get_global_avahi_client client state d

/-- The function browse_type for the backend at position k. -/
def browse_type (k : Nat) (type : CString) (d : Daemon) : Option Daemon :=
  browse_type_with get_global_avahi_client k type d

/-- The function add_browsers for the backend at position k. -/
def add_browsers (k : Nat) (d : Daemon) : Option Daemon :=
  add_browsers_with get_global_avahi_client k d

/-- The function g_vfs_backend_dns_sd_init, as far as the state of the model
goes: the new, zeroed backend object is put in front of dnssd_backends. -/
def g_vfs_backend_dns_sd_init (d : Daemon) : Daemon :=
  let backend : BackendObject :=
    { root_monitor := none, domain := none, mount_spec := none, files := [], browsers := [] }
  { d with dnssd_backends := backend :: d.dnssd_backends }

/-- The library call g_vfs_monitor_new: a monitor on which nothing was emitted. -/
def g_vfs_monitor_new : GVfsMonitor :=
  ⟨[]⟩

/-- The function try_mount for the backend at position k, returning the state
and the job, none when the process dies in a client notification that the call
of get_global_avahi_client sets off. A mount that fails leaves the backend in
dnssd_backends as it is; after the failure for a missing host that is a backend
without a domain. -/
def try_mount (k : Nat) (job : GVfsJob) (mount_spec : GMountSpec) (d : Daemon) :
    Option (Daemon × GVfsJob) :=
  match g_mount_spec_get mount_spec "host".toList with
  | none =>
    some (d, g_vfs_job_failed job GIOErrorEnum.G_IO_ERROR_INVALID_ARGUMENT
      "No domain specified for dns-sd share")
  | some domain =>
    let d := d.modify_backend k (fun backend => { backend with domain := some domain })
    match get_global_avahi_client d with
    | none => none
    | some (client, d) =>
      if client = none then
        some (d, g_vfs_job_failed job GIOErrorEnum.G_IO_ERROR_FAILED
          "Unable to initialize avahi")
      else
        let real_mount_spec := g_mount_spec_new "dns-sd".toList
        let real_mount_spec := g_mount_spec_set real_mount_spec "host".toList domain
        let d := d.modify_backend k
          (fun backend => { backend with mount_spec := some real_mount_spec })
        let d := d.modify_backend k
          (fun backend => { backend with root_monitor := some g_vfs_monitor_new })
        some (d, g_vfs_job_succeeded job)

/-- The function resolve_callback called with the backend at position k as its
user data. Avahi calls it for the browsers of a backend, after the mount; for a
backend that has no domain or no root monitor yet the process is left as it
is. -/
def resolve_callback_at (snprint : Nat → AvahiAddress → CString) (k : Nat)
    (r : ResolveResult) (d : Daemon) : Daemon :=
  d.modify_backend k (fun o =>
    match o.mounted with
    | some b => o.put (resolve_callback snprint r b)
    | none => o)

/-- The function browse_callback called with the backend at position k as its
user data, as it acts on the whole process. For a new service it fetches the
client and asks it for a resolver; every other event touches the backend only
and is handled as browse_callback above says, a backend that has no domain or
no root monitor yet being left as it is. -/
def browse_callback_at (k : Nat) (e : BrowseEvent) (d : Daemon) : Option Daemon :=
  match e.event with
  | AvahiBrowserEvent.AVAHI_BROWSER_NEW =>
    match get_global_avahi_client d with
    | none => none
    | some (_, d) => some d
  | _ =>
    some (d.modify_backend k (fun o =>
      match o.mounted with
      | some b => o.put (browse_callback e b)
      | none => o))

/-! ## Vocabulary of the claims about the connection -/

/-- What the client functions leave alone: going from d to d2, every backend
keeps everything but its browsers, the number of constructor calls does not go
down, the clients freed stay freed, and the script of the constructor calls to
come does not grow. -/
structure Daemon.Keeps (d d2 : Daemon) : Prop where
  stores : d2.dnssd_backends.map remove_browsers = d.dnssd_backends.map remove_browsers
  calls : d.client_new_calls ≤ d2.client_new_calls
  freed : ∀ c ∈ d.freed_clients, c ∈ d2.freed_clients
  script : d2.client_new_script.length ≤ d.client_new_script.length

/-- Whether every backend of the process has its domain: try_mount has got as
far as setting it for each of them. -/
def Daemon.domains_set (d : Daemon) : Bool :=
  d.dnssd_backends.all (fun o => o.domain.isSome)

/-- The state in which the handler of a disconnect calls
get_global_avahi_client: the browsers of every backend removed, the client
freed, no client handle, the library marked as not initialised. -/
def Daemon.disconnected (d : Daemon) (client : AvahiClient) : Daemon :=
  { d with
    dnssd_backends := d.dnssd_backends.map remove_browsers,
    freed_clients := d.freed_clients ++ [client],
    global_client := none,
    avahi_initialized := false }

/-- The state in which get_global_avahi_client calls the constructor: the
library marked as initialised and the poll object there. -/
def Daemon.at_client_new (d : Daemon) : Daemon :=
  { d with avahi_initialized := true, glib_poll := true }

/-- The client a constructor call returns according to its script entry. -/
def ClientNew.result (outcome : ClientNew) : Option AvahiClient :=
  match outcome.error with
  | none => some outcome.client
  | some _ => none

/-! ## Concrete processes used by the examples -/

/-- A client in good order. -/
def sample_client : AvahiClient :=
  ⟨1, AvahiErrorCode.AVAHI_OK⟩

/-- The same client once the daemon has gone away. -/
def sample_client_disconnected : AvahiClient :=
  ⟨1, AvahiErrorCode.AVAHI_ERR_DISCONNECTED⟩

/-- A process that has not touched Avahi yet and holds no backend; the first
constructor call will succeed and report the state running before it returns;
every browser creation succeeds. -/
def sample_daemon : Daemon :=
  { global_client := none, avahi_initialized := false, glib_poll := false,
    dnssd_backends := [],
    client_new_script := [⟨sample_client, [AvahiClientState.AVAHI_CLIENT_S_RUNNING], none⟩],
    client_new_calls := 0, browser_new_script := [], freed_clients := [] }

/-- The mount spec of a mount request for the given host. -/
def sample_mount_spec (host : CString) : GMountSpec :=
  g_mount_spec_set (g_mount_spec_new "dns-sd".toList) "host".toList host

/-- The process after a backend has been created and mounted for the domain
local in sample_daemon: the constructor has been called once and has reported
the state running, so the backend holds one browser for each row of the static
table, the last row first. -/
def sample_mounted : Daemon :=
  { global_client := some sample_client, avahi_initialized := true, glib_poll := true,
    dnssd_backends :=
      [{ root_monitor := some g_vfs_monitor_new, domain := some "local".toList,
         mount_spec := some (sample_mount_spec "local".toList), files := [],
         browsers := (dns_sd_types.map (fun row => (⟨row.type, none⟩ : AvahiServiceBrowser))).reverse }],
    client_new_script := [], client_new_calls := 1, browser_new_script := [],
    freed_clients := [] }

/-- The process after a second backend has been created and mounted in
sample_mounted, for the domain example.org: the second backend, at position 0,
holds no browser. -/
def sample_two_mounted : Daemon :=
  { sample_mounted with
    dnssd_backends :=
      { root_monitor := some g_vfs_monitor_new, domain := some "example.org".toList,
        mount_spec := some (sample_mount_spec "example.org".toList), files := [],
        browsers := [] } :: sample_mounted.dnssd_backends }

/-- The store after the deliveries of sample_deliveries: one entry. -/
def sample_store : GVfsBackendDnsSd :=
  deliver_all sample_snprint sample_backend sample_deliveries

/-- A backend object that is mounted and holds the store sample_store. -/
def sample_object : BackendObject :=
  { root_monitor := some sample_store.root_monitor, domain := some sample_store.domain,
    mount_spec := some (sample_mount_spec "local".toList), files := sample_store.files,
    browsers := sample_store.browsers }

/-- A connected process whose one backend is sample_object; the next
constructor call will succeed and report the state connecting. -/
def sample_serving : Daemon :=
  { global_client := some sample_client, avahi_initialized := true, glib_poll := true,
    dnssd_backends := [sample_object],
    client_new_script := [⟨⟨2, AvahiErrorCode.AVAHI_OK⟩,
      [AvahiClientState.AVAHI_CLIENT_CONNECTING], none⟩],
    client_new_calls := 1, browser_new_script := [], freed_clients := [] }

/-- A browse event that reports the failure of a browser. -/
def sample_browse_failure : BrowseEvent :=
  { interface := 2, protocol := AvahiProtocol.AVAHI_PROTO_INET,
    event := AvahiBrowserEvent.AVAHI_BROWSER_FAILURE,
    name := [], type := "_sftp-ssh._tcp".toList, domain := "local".toList }

/-- The service type a delivery carries. -/
def Delivery.service_type : Delivery → CString
  | Delivery.resolve r => r.type
  | Delivery.browse e => e.type

/-- The service types of the static table. -/
def table_types : List CString :=
  dns_sd_types.map (fun row => row.type)

/-- What the callbacks keep when the types they are called with are types of the
static table: every entry is named by the encoding of its key, the type of every
entry is a type of the static table, and no two entries share a key. -/
structure NamedInv (b : GVfsBackendDnsSd) : Prop where
  file_names : ∀ f ∈ b.files, f.file_name = encode_filename f.name f.type
  types : ∀ f ∈ b.files, f.type ∈ table_types
  nodup : (b.files.map LinkFile.key).Nodup

/-- A resolve result for a service named "Other", otherwise as sample_resolve. -/
def sample_resolve_other : ResolveResult :=
  { sample_resolve with name := "Other".toList }

end DnsSd

/-! ## Theorems: the name encoding -/

namespace DnsSd

open GFileMonitorEvent GIOErrorEnum GFileType

theorem spec_escape_name_nil : spec_escape_name [] = [] := rfl

theorem spec_escape_name_cons (c : Char) (p : CString) :
    spec_escape_name (c :: p) = spec_escape_char c ++ spec_escape_name p := by
  simp [spec_escape_name]

/-- The loop of encode_filename appends the escape of the rest of the name to
the string built so far. -/
theorem encode_filename_loop_eq (p string : CString) :
    encode_filename_loop p string = string ++ spec_escape_name p := by
  induction p generalizing string with
  | nil => simp [encode_filename_loop, spec_escape_name_nil]
  | cons c p ih =>
    rw [encode_filename_loop, spec_escape_name_cons]
    unfold spec_escape_char
    split_ifs <;> simp [ih]

theorem encode_filename_eq (name type : CString) :
    encode_filename name type = spec_escape_name name ++ '.' :: type := by
  simp [encode_filename, encode_filename_loop_eq]

/-- The escaped name followed by the separating dot determines the name and
what follows the dot. -/
theorem spec_escape_name_sep_inj (n1 n2 t1 t2 : CString)
    (h : spec_escape_name n1 ++ '.' :: t1 = spec_escape_name n2 ++ '.' :: t2) :
    n1 = n2 ∧ t1 = t2 := by
  induction n1 generalizing n2 with
  | nil =>
    cases n2 with
    | nil => simpa [spec_escape_name_nil] using h
    | cons c2 p2 =>
      exfalso
      rw [spec_escape_name_nil, spec_escape_name_cons] at h
      unfold spec_escape_char at h
      split_ifs at h <;> simp at h
      exact absurd h.1.symm (by assumption)
  | cons c1 p1 ih =>
    cases n2 with
    | nil =>
      exfalso
      rw [spec_escape_name_nil, spec_escape_name_cons] at h
      unfold spec_escape_char at h
      split_ifs at h <;> simp at h
      exact absurd h.1 (by assumption)
    | cons c2 p2 =>
      rw [spec_escape_name_cons, spec_escape_name_cons] at h
      unfold spec_escape_char at h
      split_ifs at h <;> simp at h <;>
        first
        | (obtain ⟨rfl, rfl⟩ := ih _ h; subst_vars; exact ⟨rfl, rfl⟩)
        | (obtain ⟨rfl, rfl⟩ := ih _ h.2; exact ⟨by rw [h.1], rfl⟩)
        | exact absurd h.1.symm (by assumption)
        | exact absurd h.1 (by assumption)

/-- No escaped name contains a slash. -/
theorem slash_not_mem_spec_escape_name (name : CString) : '/' ∉ spec_escape_name name := by
  induction name with
  | nil => simp [spec_escape_name_nil]
  | cons c p ih =>
    rw [spec_escape_name_cons]
    unfold spec_escape_char
    split_ifs <;> simp_all [eq_comm]

/-- Claim C1. The function encode_filename is injective on pairs: two pairs of
an instance name and a service type with the same file name are the same pair,
whatever characters the names and the types contain. -/
theorem encode_filename_injective (n1 t1 n2 t2 : CString) :
    encode_filename n1 t1 = encode_filename n2 t2 → n1 = n2 ∧ t1 = t2 := by
  intro h
  rw [encode_filename_eq, encode_filename_eq] at h
  exact spec_escape_name_sep_inj n1 n2 t1 t2 h

/-- Witness of claim C1 at names with a dot, a slash and a backslash. -/
theorem encode_filename_injective_witness :
    encode_filename "a.b/c\\d".toList "_ftp._tcp".toList =
        encode_filename "a.b/c\\d".toList "_ftp._tcp".toList ∧
      ("a.b/c\\d".toList = "a.b/c\\d".toList ∧ "_ftp._tcp".toList = "_ftp._tcp".toList) :=
  ⟨rfl, encode_filename_injective _ _ _ _ rfl⟩

/-- Claim C2. For every instance name and service type encode_filename returns
the character-by-character escape of the name, then one dot, then the service
type unchanged; being a total function it returns for every input. -/
theorem encode_filename_eq_spec_encode (name type : CString) :
    encode_filename name type = spec_encode name type := by
  rw [encode_filename_eq]
  simp [spec_encode]

/-- Claim C3, refuted as stated: for the instance name "a" and the type string
"x/y" the file name is "a.x/y", which contains a slash. -/
theorem encode_filename_slash_counterexample :
    encode_filename "a".toList "x/y".toList = "a.x/y".toList ∧
      '/' ∈ encode_filename "a".toList "x/y".toList := by
  decide

/-- Claim C3, amended. For every instance name and every service type that
contains no slash, the file name returned by encode_filename contains no slash. -/
theorem encode_filename_no_slash (name type : CString) (h : '/' ∉ type) :
    '/' ∉ encode_filename name type := by
  rw [encode_filename_eq]
  have := slash_not_mem_spec_escape_name name
  simp_all

/-- Witness of the amended claim C3 at a name with slashes and a type of the
static table. -/
theorem encode_filename_no_slash_witness :
    '/' ∉ "_sftp-ssh._tcp".toList ∧
      '/' ∉ encode_filename "a/b//c".toList "_sftp-ssh._tcp".toList :=
  ⟨by decide, encode_filename_no_slash _ _ (by decide)⟩

/-! ## Theorems: the store and the monitor events -/

theorem strictly_alternates_append (s : Bool) (ks : List GFileMonitorEvent)
    (e : GFileMonitorEvent) :
    strictly_alternates s (ks ++ [e]) =
      (strictly_alternates s ks &&
        (if e = G_FILE_MONITOR_EVENT_CREATED then !end_state s ks
          else if e = G_FILE_MONITOR_EVENT_DELETED then end_state s ks else false)) := by
  induction ks generalizing s with
  | nil =>
    simp only [List.nil_append, strictly_alternates, end_state]
    split_ifs <;> simp
  | cons k ks ih =>
    rw [List.cons_append]
    simp only [strictly_alternates, end_state]
    rw [ih true, ih false]
    by_cases h1 : k = G_FILE_MONITOR_EVENT_CREATED
    · simp only [h1, if_true, Bool.and_assoc]
    · by_cases h2 : k = G_FILE_MONITOR_EVENT_DELETED
      · subst h2
        simp only [reduceCtorEq, if_false, if_true, Bool.and_assoc]
      · simp only [h1, h2, if_false, Bool.false_and]

theorem end_state_append (s : Bool) (ks : List GFileMonitorEvent) (e : GFileMonitorEvent) :
    end_state s (ks ++ [e]) =
      (if e = G_FILE_MONITOR_EVENT_CREATED then true
        else if e = G_FILE_MONITOR_EVENT_DELETED then false else end_state s ks) := by
  induction ks generalizing s with
  | nil => simp [end_state]
  | cons k ks ih =>
    rw [List.cons_append]
    simp only [end_state]
    exact ih _

theorem strictly_alternates_counts (s : Bool) (ks : List GFileMonitorEvent)
    (h : strictly_alternates s ks = true) :
    ks.count G_FILE_MONITOR_EVENT_CREATED + (if s then 1 else 0) =
      ks.count G_FILE_MONITOR_EVENT_DELETED + (if end_state s ks then 1 else 0) := by
  induction ks generalizing s with
  | nil => simp [end_state]
  | cons k ks ih =>
    simp only [strictly_alternates] at h
    simp only [end_state]
    split_ifs at h with h1 h2
    · simp only [Bool.and_eq_true, Bool.not_eq_true'] at h
      have := ih true h.2
      subst h1
      simp_all [List.count_cons]
    · simp only [Bool.and_eq_true] at h
      have := ih false h.2
      subst h2
      simp_all [List.count_cons]
      omega

theorem strictly_alternates_take (s : Bool) (ks : List GFileMonitorEvent) (i : Nat)
    (h : strictly_alternates s ks = true) : strictly_alternates s (ks.take i) = true := by
  induction ks generalizing s i with
  | nil => simp [strictly_alternates]
  | cons k ks ih =>
    cases i with
    | zero => simp [strictly_alternates]
    | succ i =>
      simp only [strictly_alternates, List.take_succ_cons] at h ⊢
      split_ifs at h ⊢ with h1 h2
      · simp only [Bool.and_eq_true] at h ⊢
        exact ⟨h.1, ih _ _ h.2⟩
      · simp only [Bool.and_eq_true] at h ⊢
        exact ⟨h.1, ih _ _ h.2⟩

theorem lookup_eq_none_iff (b : GVfsBackendDnsSd) (n t : CString) :
    lookup_link_file_by_name_and_type b n t = none ↔ (n, t) ∉ b.files.map LinkFile.key := by
  simp only [lookup_link_file_by_name_and_type, List.find?_eq_none, List.mem_map, LinkFile.key,
    Prod.mk.injEq, not_exists, not_and, decide_eq_true_eq]

theorem lookup_eq_some (b : GVfsBackendDnsSd) (n t : CString) (f : LinkFile)
    (h : lookup_link_file_by_name_and_type b n t = some f) :
    f ∈ b.files ∧ f.name = n ∧ f.type = t := by
  unfold lookup_link_file_by_name_and_type at h
  have h1 := List.mem_of_find?_eq_some h
  have h2 := List.find?_some h
  simp only [decide_eq_true_eq] at h2
  exact ⟨h1, h2⟩

theorem present_iff_mem (b : GVfsBackendDnsSd) (n t : CString) :
    present b n t = true ↔ (n, t) ∈ b.files.map LinkFile.key := by
  rw [present, ← not_iff_not, ← lookup_eq_none_iff]
  cases lookup_link_file_by_name_and_type b n t <;> simp

theorem present_eq_false_iff (b : GVfsBackendDnsSd) (n t : CString) :
    present b n t = false ↔ lookup_link_file_by_name_and_type b n t = none := by
  rw [present]
  cases lookup_link_file_by_name_and_type b n t <;> simp

theorem link_file_new_key (snprint : Nat → AvahiAddress → CString)
    (name type domain host_name : CString) (protocol : AvahiProtocol)
    (address : AvahiAddress) (port : Nat) (txt : AvahiStringList) :
    (link_file_new snprint name type domain host_name protocol address port txt).key =
      (name, type) := rfl

theorem link_file_new_file_name (snprint : Nat → AvahiAddress → CString)
    (name type domain host_name : CString) (protocol : AvahiProtocol)
    (address : AvahiAddress) (port : Nat) (txt : AvahiStringList) :
    (link_file_new snprint name type domain host_name protocol address port txt).file_name =
      encode_filename name type := rfl

theorem key_path_eq_iff (n1 t1 n2 t2 : CString) :
    key_path n1 t1 = key_path n2 t2 ↔ (n1, t1) = (n2, t2) := by
  constructor
  · intro h
    simp only [key_path, List.append_cancel_left_eq, encode_filename_eq] at h
    obtain ⟨h1, h2⟩ := spec_escape_name_sep_inj n1 n2 t1 t2 h
    rw [h1, h2]
  · intro h
    cases h
    rfl

/-- Removing an entry from a store with unique keys removes exactly its key. -/
theorem mem_keys_erase (l : List LinkFile) (f : LinkFile)
    (hnd : (l.map LinkFile.key).Nodup) (hf : f ∈ l) (k : CString × CString) :
    k ∈ (l.erase f).map LinkFile.key ↔ k ∈ l.map LinkFile.key ∧ k ≠ f.key := by
  induction l with
  | nil => simp at hf
  | cons a l ih =>
    rw [List.map_cons, List.nodup_cons] at hnd
    by_cases ha : a = f
    · subst ha
      rw [List.erase_cons_head, List.map_cons, List.mem_cons]
      constructor
      · intro hk
        exact ⟨Or.inr hk, fun h => hnd.1 (h ▸ hk)⟩
      · rintro ⟨hk | hk, hne⟩
        · exact absurd hk hne
        · exact hk
    · have hfl : f ∈ l := by
        rcases List.mem_cons.mp hf with h | h
        · exact absurd h.symm ha
        · exact h
      have hne : a.key ≠ f.key := fun h => hnd.1 (h ▸ List.mem_map_of_mem _ hfl)
      rw [List.erase_cons_tail (by simpa using ha), List.map_cons, List.mem_cons,
        List.map_cons, List.mem_cons, ih hnd.2 hfl]
      constructor
      · rintro (hk | ⟨hk, hkf⟩)
        · exact ⟨Or.inl hk, hk ▸ hne⟩
        · exact ⟨Or.inr hk, hkf⟩
      · rintro ⟨hk | hk, hkf⟩
        · exact Or.inl hk
        · exact Or.inr ⟨hk, hkf⟩

/-- The events of a key after one more event has been emitted. -/
theorem events_for_emit (b b' : GVfsBackendDnsSd) (ty : GFileMonitorEvent) (path : CString)
    (o : Option CString)
    (h : b'.root_monitor = g_vfs_monitor_emit_event b.root_monitor ty path o)
    (n t : CString) :
    events_for b' n t = events_for b n t ++ (if path = key_path n t then [ty] else []) := by
  simp only [events_for, h, g_vfs_monitor_emit_event, List.filter_append, List.map_append]
  by_cases hp : path = key_path n t
  · simp [hp]
  · simp [hp]

/-- A backend with no entry and no event emitted satisfies the invariant. -/
theorem StoreInv.init (b : GVfsBackendDnsSd) (hf : b.files = [])
    (he : b.root_monitor.emitted = []) : StoreInv b where
  file_names := by simp [hf]
  nodup := by simp [hf]
  alternates := by simp [events_for, he, strictly_alternates]
  state := by simp [events_for, he, hf, end_state]

/-- The callback resolve_callback keeps the invariant. -/
theorem StoreInv.resolve_callback (snprint : Nat → AvahiAddress → CString) (r : ResolveResult)
    (b : GVfsBackendDnsSd) (inv : StoreInv b) : StoreInv (resolve_callback snprint r b) := by
  unfold DnsSd.resolve_callback
  split_ifs with h1 h2
  · exact inv
  · exact inv
  · split
    · exact inv
    · rename_i hnone
      have habs : (r.name, r.type) ∉ b.files.map LinkFile.key :=
        (lookup_eq_none_iff b r.name r.type).mp hnone
      have hev := events_for_emit b
        { files := link_file_new snprint r.name r.type r.domain r.host_name r.protocol
            r.address r.port r.txt :: b.files,
          root_monitor := g_vfs_monitor_emit_event b.root_monitor G_FILE_MONITOR_EVENT_CREATED
            ("/".toList ++ (link_file_new snprint r.name r.type r.domain r.host_name
              r.protocol r.address r.port r.txt).file_name) none,
          domain := b.domain, browsers := b.browsers }
        G_FILE_MONITOR_EVENT_CREATED _ none rfl
      rw [link_file_new_file_name] at hev
      change ∀ n t, _ = _ ++ (if key_path r.name r.type = key_path n t then _ else _) at hev
      dsimp only
      rw [link_file_new_file_name]
      refine ⟨?_, ?_, ?_, ?_⟩
      · intro f hf
        rcases List.mem_cons.mp hf with h | h
        · rw [h]
          rfl
        · exact inv.file_names f h
      · exact List.nodup_cons.mpr ⟨habs, inv.nodup⟩
      · intro n t
        rw [hev n t]
        by_cases hk : (r.name, r.type) = (n, t)
        · rw [if_pos ((key_path_eq_iff _ _ _ _).mpr hk), strictly_alternates_append,
            inv.alternates n t]
          have hs : ¬ end_state false (events_for b n t) = true := by
            rw [inv.state n t, ← hk]
            exact habs
          simpa using hs
        · rw [if_neg (fun h => hk ((key_path_eq_iff _ _ _ _).mp h)), List.append_nil]
          exact inv.alternates n t
      · intro n t
        rw [hev n t]
        change _ ↔ (n, t) ∈ (r.name, r.type) :: b.files.map LinkFile.key
        rw [List.mem_cons]
        by_cases hk : (r.name, r.type) = (n, t)
        · rw [if_pos ((key_path_eq_iff _ _ _ _).mpr hk), end_state_append]
          simp [hk]
        · rw [if_neg (fun h => hk ((key_path_eq_iff _ _ _ _).mp h)), List.append_nil,
            inv.state n t]
          constructor
          · exact Or.inr
          · rintro (h | h)
            · exact absurd h.symm hk
            · exact h

/-- The callback browse_callback keeps the invariant. -/
theorem StoreInv.browse_callback (e : BrowseEvent) (b : GVfsBackendDnsSd) (inv : StoreInv b) :
    StoreInv (browse_callback e b) := by
  unfold DnsSd.browse_callback
  split
  · exact inv
  · exact inv
  · split
    · rename_i file hsome
      obtain ⟨hmem, hname, htype⟩ := lookup_eq_some b e.name e.type file hsome
      have hkey : file.key = (e.name, e.type) := by
        simp [LinkFile.key, hname, htype]
      have hfn : file.file_name = encode_filename e.name e.type := by
        rw [inv.file_names file hmem, hname, htype]
      have hev := events_for_emit b
        { files := b.files.erase file,
          root_monitor := g_vfs_monitor_emit_event b.root_monitor G_FILE_MONITOR_EVENT_DELETED
            ("/".toList ++ file.file_name) none,
          domain := b.domain, browsers := b.browsers }
        G_FILE_MONITOR_EVENT_DELETED _ none rfl
      rw [hfn] at hev
      change ∀ n t, _ = _ ++ (if key_path e.name e.type = key_path n t then _ else _) at hev
      have hker := mem_keys_erase b.files file inv.nodup hmem
      rw [hkey] at hker
      dsimp only
      rw [hfn]
      refine ⟨?_, ?_, ?_, ?_⟩
      · intro f hf
        exact inv.file_names f (List.mem_of_mem_erase hf)
      · exact inv.nodup.sublist ((List.erase_sublist file b.files).map LinkFile.key)
      · intro n t
        rw [hev n t]
        by_cases hk : (e.name, e.type) = (n, t)
        · rw [if_pos ((key_path_eq_iff _ _ _ _).mpr hk), strictly_alternates_append,
            inv.alternates n t]
          have hs : end_state false (events_for b n t) = true := by
            rw [inv.state n t, ← hk, ← hkey]
            exact List.mem_map_of_mem _ hmem
          simp [hs]
        · rw [if_neg (fun h => hk ((key_path_eq_iff _ _ _ _).mp h)), List.append_nil]
          exact inv.alternates n t
      · intro n t
        rw [hev n t]
        change _ ↔ (n, t) ∈ (b.files.erase file).map LinkFile.key
        rw [hker (n, t)]
        by_cases hk : (e.name, e.type) = (n, t)
        · rw [if_pos ((key_path_eq_iff _ _ _ _).mpr hk), end_state_append]
          simp [hk]
        · rw [if_neg (fun h => hk ((key_path_eq_iff _ _ _ _).mp h)), List.append_nil,
            inv.state n t]
          constructor
          · exact fun h => ⟨h, fun h2 => hk h2.symm⟩
          · exact fun h => h.1
    · exact inv
  · exact inv
  · exact inv

/-- Every delivery keeps the invariant. -/
theorem StoreInv.deliver (snprint : Nat → AvahiAddress → CString) (d : Delivery)
    (b : GVfsBackendDnsSd) (inv : StoreInv b) : StoreInv (deliver snprint b d) := by
  cases d with
  | resolve r => exact inv.resolve_callback snprint r
  | browse e => exact inv.browse_callback e

/-- Every sequence of deliveries keeps the invariant. -/
theorem StoreInv.deliver_all (snprint : Nat → AvahiAddress → CString) (ds : List Delivery)
    (b : GVfsBackendDnsSd) (inv : StoreInv b) : StoreInv (deliver_all snprint b ds) := by
  induction ds generalizing b with
  | nil => exact inv
  | cons d ds ih => exact ih _ (inv.deliver snprint d)


/-- In a list of entries with pairwise different keys at most one entry has a
given key. -/
theorem filter_key_length_le_one (l : List LinkFile) (hnd : (l.map LinkFile.key).Nodup)
    (n t : CString) : (l.filter (fun f => f.name = n ∧ f.type = t)).length ≤ 1 := by
  induction l with
  | nil => simp
  | cons a l ih =>
    rw [List.map_cons, List.nodup_cons] at hnd
    by_cases ha : a.name = n ∧ a.type = t
    · have hempty : l.filter (fun f => f.name = n ∧ f.type = t) = [] := by
        rw [List.filter_eq_nil_iff]
        intro f hf hft
        simp only [decide_eq_true_eq] at hft
        apply hnd.1
        have : a.key = f.key := by
          simp [LinkFile.key, ha.1, ha.2, hft.1, hft.2]
        rw [this]
        exact List.mem_map_of_mem _ hf
      rw [List.filter_cons_of_pos (by simpa using ha), hempty]
      simp
    · rw [List.filter_cons_of_neg (by simpa using ha)]
      exact ih hnd.2

/-- The callbacks keep the keys of the store pairwise different. -/
theorem keys_nodup_deliver (snprint : Nat → AvahiAddress → CString) (d : Delivery)
    (b : GVfsBackendDnsSd) (hnd : (b.files.map LinkFile.key).Nodup) :
    ((deliver snprint b d).files.map LinkFile.key).Nodup := by
  cases d with
  | resolve r =>
    simp only [deliver, resolve_callback]
    split_ifs
    · exact hnd
    · exact hnd
    · split
      · exact hnd
      · rename_i hnone
        exact List.nodup_cons.mpr ⟨(lookup_eq_none_iff b r.name r.type).mp hnone, hnd⟩
  | browse e =>
    simp only [deliver, browse_callback]
    split
    · exact hnd
    · exact hnd
    · split
      · exact hnd.sublist ((List.erase_sublist _ b.files).map LinkFile.key)
      · exact hnd
    · exact hnd
    · exact hnd

theorem keys_nodup_deliver_all (snprint : Nat → AvahiAddress → CString) (ds : List Delivery)
    (b : GVfsBackendDnsSd) (hnd : (b.files.map LinkFile.key).Nodup) :
    ((deliver_all snprint b ds).files.map LinkFile.key).Nodup := by
  induction ds generalizing b with
  | nil => exact hnd
  | cons d ds ih => exact ih _ (keys_nodup_deliver snprint d b hnd)

/-- Claim C4. Starting from a store with no entry, after every sequence of
resolve results and browse events the list of entries of the backend holds at
most one entry for each pair of an instance name and a service type. -/
theorem store_at_most_one_entry_per_key (snprint : Nat → AvahiAddress → CString)
    (b : GVfsBackendDnsSd) (hf : b.files = []) (ds : List Delivery) (name type : CString) :
    (entries_for (deliver_all snprint b ds) name type).length ≤ 1 :=
  filter_key_length_le_one _ (keys_nodup_deliver_all snprint ds b (by simp [hf])) name type

/-- Witness of claim C4: a service resolved twice, removed and resolved again. -/
theorem store_at_most_one_entry_per_key_witness :
    sample_backend.files = [] ∧
      (entries_for (deliver_all sample_snprint sample_backend sample_deliveries)
        "Files".toList "_sftp-ssh._tcp".toList).length ≤ 1 :=
  ⟨rfl, store_at_most_one_entry_per_key sample_snprint sample_backend rfl sample_deliveries _ _⟩

/-- Claim C5. For every sequence of resolve results and browse events applied
to a store with no entry and no event emitted, and for every key: the key is
present in the final store if and only if the number of created events emitted
for it is the number of deleted events emitted for it plus one; when the key is
absent the two numbers are equal. -/
theorem present_iff_created_eq_deleted_succ (snprint : Nat → AvahiAddress → CString)
    (b : GVfsBackendDnsSd) (hf : b.files = []) (he : b.root_monitor.emitted = [])
    (ds : List Delivery) (name type : CString) :
    (present (deliver_all snprint b ds) name type = true ↔
        created_count (deliver_all snprint b ds) name type =
          deleted_count (deliver_all snprint b ds) name type + 1) ∧
      (present (deliver_all snprint b ds) name type = false →
        created_count (deliver_all snprint b ds) name type =
          deleted_count (deliver_all snprint b ds) name type) := by
  have inv := StoreInv.deliver_all snprint ds b (StoreInv.init b hf he)
  have hc := strictly_alternates_counts false _ (inv.alternates name type)
  have hs := inv.state name type
  rw [← present_iff_mem] at hs
  simp only [created_count, deleted_count]
  cases hp : present (deliver_all snprint b ds) name type
  · have hfalse : end_state false (events_for (deliver_all snprint b ds) name type) = false := by
      cases hes : end_state false (events_for (deliver_all snprint b ds) name type)
      · rfl
      · rw [hs.mp hes] at hp
        exact absurd hp (by simp)
    rw [hfalse] at hc
    simp only [Bool.false_eq_true, if_false, Nat.add_zero] at hc
    constructor
    · constructor
      · intro h
        exact absurd h (by simp)
      · intro h
        omega
    · intro _
      exact hc
  · rw [hs.mpr hp] at hc
    simp only [Bool.false_eq_true, if_false, if_true, Nat.add_zero] at hc
    constructor
    · constructor
      · intro _
        exact hc
      · intro _
        rfl
    · intro h
      exact absurd h (by simp)

/-- Witness of claim C5: a service resolved twice, removed and resolved again. -/
theorem present_iff_created_eq_deleted_succ_witness :
    sample_backend.files = [] ∧ sample_backend.root_monitor.emitted = [] ∧
      ((present (deliver_all sample_snprint sample_backend sample_deliveries)
            "Files".toList "_sftp-ssh._tcp".toList = true ↔
          created_count (deliver_all sample_snprint sample_backend sample_deliveries)
              "Files".toList "_sftp-ssh._tcp".toList =
            deleted_count (deliver_all sample_snprint sample_backend sample_deliveries)
              "Files".toList "_sftp-ssh._tcp".toList + 1) ∧
        (present (deliver_all sample_snprint sample_backend sample_deliveries)
            "Files".toList "_sftp-ssh._tcp".toList = false →
          created_count (deliver_all sample_snprint sample_backend sample_deliveries)
              "Files".toList "_sftp-ssh._tcp".toList =
            deleted_count (deliver_all sample_snprint sample_backend sample_deliveries)
              "Files".toList "_sftp-ssh._tcp".toList)) :=
  ⟨rfl, rfl,
    present_iff_created_eq_deleted_succ sample_snprint sample_backend rfl rfl
      sample_deliveries _ _⟩

/-- Claim C6. In the monitor events emitted by any run of resolve results and
browse events from a store with no entry and no event emitted, the events that
carry the path of one key strictly alternate created, deleted, created and so
on, beginning with created; so at every deleted event for the key more created
than deleted events for the key have been emitted before it. -/
theorem events_of_key_alternate (snprint : Nat → AvahiAddress → CString)
    (b : GVfsBackendDnsSd) (hf : b.files = []) (he : b.root_monitor.emitted = [])
    (ds : List Delivery) (name type : CString) :
    strictly_alternates false (events_for (deliver_all snprint b ds) name type) = true ∧
      ∀ i : Nat,
        (events_for (deliver_all snprint b ds) name type)[i]? =
            some G_FILE_MONITOR_EVENT_DELETED →
          ((events_for (deliver_all snprint b ds) name type).take i).count
              G_FILE_MONITOR_EVENT_DELETED <
            ((events_for (deliver_all snprint b ds) name type).take i).count
              G_FILE_MONITOR_EVENT_CREATED := by
  have inv := StoreInv.deliver_all snprint ds b (StoreInv.init b hf he)
  have halt := inv.alternates name type
  refine ⟨halt, ?_⟩
  intro i hi
  have h1 := strictly_alternates_take false _ (i + 1) halt
  rw [List.take_succ, hi, Option.toList_some, strictly_alternates_append] at h1
  simp only [reduceCtorEq, if_false, if_true, Bool.and_eq_true] at h1
  have hc := strictly_alternates_counts false _ h1.1
  rw [h1.2] at hc
  simp only [Bool.false_eq_true, if_false, if_true, Nat.add_zero] at hc
  omega

/-- Witness of claim C6: a service resolved twice, removed and resolved again. -/
theorem events_of_key_alternate_witness :
    sample_backend.files = [] ∧ sample_backend.root_monitor.emitted = [] ∧
      (strictly_alternates false
          (events_for (deliver_all sample_snprint sample_backend sample_deliveries)
            "Files".toList "_sftp-ssh._tcp".toList) = true ∧
        ∀ i : Nat,
          (events_for (deliver_all sample_snprint sample_backend sample_deliveries)
              "Files".toList "_sftp-ssh._tcp".toList)[i]? =
              some GFileMonitorEvent.G_FILE_MONITOR_EVENT_DELETED →
            ((events_for (deliver_all sample_snprint sample_backend sample_deliveries)
                "Files".toList "_sftp-ssh._tcp".toList).take i).count
                GFileMonitorEvent.G_FILE_MONITOR_EVENT_DELETED <
              ((events_for (deliver_all sample_snprint sample_backend sample_deliveries)
                "Files".toList "_sftp-ssh._tcp".toList).take i).count
                GFileMonitorEvent.G_FILE_MONITOR_EVENT_CREATED) :=
  ⟨rfl, rfl,
    events_of_key_alternate sample_snprint sample_backend rfl rfl sample_deliveries _ _⟩

/-- Claim C7. For every store and every resolve result, of any service type,
whose address is an IPv6 address with first two octets 0xfe and 0x80,
resolve_callback leaves the backend as it is: the store is unchanged and no
monitor event is emitted. -/
theorem resolve_callback_link_local (snprint : Nat → AvahiAddress → CString)
    (b : GVfsBackendDnsSd) (r : ResolveResult)
    (hp : r.address.proto = AvahiProtocol.AVAHI_PROTO_INET6)
    (h0 : r.address.octet 0 = 0xfe) (h1 : r.address.octet 1 = 0x80) :
    resolve_callback snprint r b = b := by
  unfold resolve_callback
  split_ifs with h2 h3
  · rfl
  · rfl
  · exact absurd ⟨hp, h0, h1⟩ h3

/-- Witness of claim C7: the address fe80::1 on a store that holds an entry. -/
theorem resolve_callback_link_local_witness :
    sample_link_local.proto = AvahiProtocol.AVAHI_PROTO_INET6 ∧
      sample_link_local.octet 0 = 0xfe ∧ sample_link_local.octet 1 = 0x80 ∧
      resolve_callback sample_snprint
          { sample_resolve with
            name := "Other".toList, protocol := AvahiProtocol.AVAHI_PROTO_INET6,
            address := sample_link_local }
          (deliver_all sample_snprint sample_backend sample_deliveries) =
        deliver_all sample_snprint sample_backend sample_deliveries :=
  ⟨rfl, rfl, rfl, resolve_callback_link_local sample_snprint _ _ rfl rfl rfl⟩

/-! ## Theorems: the connection URI -/


theorem printf_decimal_natCast (n : Nat) : printf_decimal (n : Int) = Nat.toDigits 10 n := by
  unfold printf_decimal
  rw [if_neg (by omega)]
  rfl

/-- The connection URI built by link_file_new for a type of the static table:
the host literal is bracketed exactly when the protocol argument of the
callback is IPv6. -/
theorem link_file_new_target_uri (snprint : Nat → AvahiAddress → CString)
    (name type domain host_name : CString) (protocol : AvahiProtocol)
    (address : AvahiAddress) (port : Nat) (txt : AvahiStringList) (s : CString)
    (hs : get_method_for_type type = some s) (hport : port < 65536) :
    (link_file_new snprint name type domain host_name protocol address port txt).target_uri =
      s ++ "://".toList ++ spec_uri_user txt ++
        (if protocol = AvahiProtocol.AVAHI_PROTO_INET6 then
          "[".toList ++ snprint 128 address ++ "]".toList
        else snprint 128 address) ++
        ":".toList ++ Nat.toDigits 10 port ++ spec_uri_path txt := by
  have hu : (if txt ≠ [] then
        match avahi_string_list_find txt "u".toList with
        | some user_l =>
          (avahi_string_list_get_pair_value user_l).map (fun user => user ++ "@".toList)
        | none => none
      else none).getD [] = spec_uri_user txt := by
    unfold spec_uri_user txt_attribute
    by_cases ht : txt = []
    · subst ht
      rfl
    · rw [if_pos ht]
      cases avahi_string_list_find txt "u".toList with
      | none => rfl
      | some user_l =>
        cases h : avahi_string_list_get_pair_value user_l <;> simp [h]
  have hp : (if txt ≠ [] then
        match avahi_string_list_find txt "path".toList with
        | some path_l => avahi_string_list_get_pair_value path_l
        | none => none
      else none).getD "/".toList = spec_uri_path txt := by
    unfold spec_uri_path txt_attribute
    by_cases ht : txt = []
    · subst ht
      rfl
    · rw [if_pos ht]
      cases avahi_string_list_find txt "path".toList with
      | none => rfl
      | some path_l =>
        cases h : avahi_string_list_get_pair_value path_l <;> simp [h]
  simp only [link_file_new, hs, hu, hp, Nat.mod_eq_of_lt hport]
  split_ifs
  · simp [g_strdup_printf, printf_decimal_natCast]
  · simp [g_strdup_printf, printf_decimal_natCast]

/-- The first example of the specification: the type _sftp-ssh._tcp, the
address 192.0.2.5, port 22 and the attribute path=/home/alice give the URI
sftp://192.0.2.5:22/home/alice. -/
theorem link_file_new_sftp_example :
    (link_file_new sample_snprint "Files".toList "_sftp-ssh._tcp".toList "local".toList
        "alice.local".toList AvahiProtocol.AVAHI_PROTO_INET sample_ipv4 22
        ["path=/home/alice".toList]).target_uri =
      "sftp://192.0.2.5:22/home/alice".toList := by
  decide

/-- The second example of the specification, for a reply received over IPv6:
the scheme davs, the address 2001:db8::1, port 443 and the attribute u=bob give
the URI davs://bob@[2001:db8::1]:443/. -/
theorem link_file_new_davs_example :
    (link_file_new sample_snprint "Files".toList "_webdavs._tcp".toList "local".toList
        "bob.local".toList AvahiProtocol.AVAHI_PROTO_INET6 sample_ipv6 443
        ["u=bob".toList]).target_uri =
      "davs://bob@[2001:db8::1]:443/".toList := by
  decide

/-- Claim C8, the code at the failing input. The IPv6 address 2001:db8::1 is
resolved for a service of type _webdavs._tcp, port 443, attribute u=bob, and
the reply arrives over IPv4, so that the protocol argument of the callback is
AVAHI_PROTO_INET. The URI built is davs://bob@2001:db8::1:443/, the IPv6 host
literal without brackets, where the claim has davs://bob@[2001:db8::1]:443/. -/
theorem link_file_new_ipv6_address_unbracketed :
    sample_ipv6.proto = AvahiProtocol.AVAHI_PROTO_INET6 ∧
      sample_snprint 128 sample_ipv6 = "2001:db8::1".toList ∧
      (link_file_new sample_snprint "Files".toList "_webdavs._tcp".toList "local".toList
          "bob.local".toList AvahiProtocol.AVAHI_PROTO_INET sample_ipv6 443
          ["u=bob".toList]).target_uri =
        "davs://bob@2001:db8::1:443/".toList := by
  decide

/-! ## Theorems: stat and monitor requests -/

theorem dropWhile_slash_cons (seg : CString) (hne : seg ≠ []) (hns : '/' ∉ seg) :
    ("/".toList ++ seg).dropWhile (fun c => c = '/') = seg := by
  cases seg with
  | nil => exact absurd rfl hne
  | cons c s =>
    have hc : c ≠ '/' := fun h => hns (h ▸ List.mem_cons_self _ _)
    show List.dropWhile _ ('/' :: c :: s) = _
    simp [List.dropWhile, hc]

/-- What lookup_link_file returns for the path of a single segment: the first
file with that name, or NULL and a job failed with the code not found. -/
theorem lookup_link_file_segment (b : GVfsBackendDnsSd) (job : GVfsJob) (seg : CString)
    (hne : seg ≠ []) (hns : '/' ∉ seg) :
    lookup_link_file b job ("/".toList ++ seg) =
      match b.files.find? (fun file => file.file_name = seg) with
      | some file => (LinkFilePtr.file file, job)
      | none =>
        (LinkFilePtr.null,
          g_vfs_job_failed job GIOErrorEnum.G_IO_ERROR_NOT_FOUND "File doesn't exist") := by
  unfold lookup_link_file
  simp only [dropWhile_slash_cons seg hne hns]
  rw [if_neg (by simp [String.toList]), if_neg hne, if_neg hns]

theorem lookup_link_file_root (b : GVfsBackendDnsSd) (job : GVfsJob) :
    lookup_link_file b job "/".toList = (LinkFilePtr.root, job) := by
  rfl

/-- Claim C9. For every store and every segment that is not empty and contains
no slash, a stat of the path made of a slash and the segment either succeeds
with the shortcut descriptor of a stored entry whose file name is the segment
(the name is the segment, the display name and the target URI are those of the
entry), or no stored entry has that file name and the stat fails with the code
not found; a stat of the root path succeeds with the descriptor of a directory
named by a single slash. -/
theorem try_query_info_stat (b : GVfsBackendDnsSd) (job : GVfsJob) (info : GFileInfo)
    (seg : CString) (hne : seg ≠ []) (hns : '/' ∉ seg) :
    ((∃ f ∈ b.files, f.file_name = seg ∧
          try_query_info b job ("/".toList ++ seg) info =
            (g_vfs_job_succeeded job, file_info_from_file f info) ∧
          (file_info_from_file f info).name = some seg ∧
          (file_info_from_file f info).display_name = some f.name ∧
          (file_info_from_file f info).file_type = some G_FILE_TYPE_SHORTCUT ∧
          (file_info_from_file f info).standard_target_uri = some f.target_uri) ∨
        ((∀ f ∈ b.files, f.file_name ≠ seg) ∧
          try_query_info b job ("/".toList ++ seg) info =
            (g_vfs_job_failed job G_IO_ERROR_NOT_FOUND "File doesn't exist", info))) ∧
      (try_query_info b job "/".toList info).1 = g_vfs_job_succeeded job ∧
      (try_query_info b job "/".toList info).2.name = some "/".toList ∧
      (try_query_info b job "/".toList info).2.file_type = some G_FILE_TYPE_DIRECTORY := by
  refine ⟨?_, ?_, ?_, ?_⟩
  · unfold try_query_info
    rw [lookup_link_file_segment b job seg hne hns]
    cases hfind : b.files.find? (fun file => file.file_name = seg) with
    | none =>
      right
      refine ⟨?_, rfl⟩
      intro f hf
      have := List.find?_eq_none.mp hfind f hf
      simpa using this
    | some f =>
      left
      have hname : f.file_name = seg := by
        simpa using List.find?_some hfind
      refine ⟨f, List.mem_of_find?_eq_some hfind, hname, rfl, ?_, ?_, rfl, ?_⟩
      · rw [← hname]
        unfold file_info_from_file
        cases f.icon <;> rfl
      · unfold file_info_from_file
        cases f.icon <;> rfl
      · unfold file_info_from_file
        cases f.icon <;> rfl
  · rfl
  · rfl
  · rfl

/-- Witness of claim C9: the stat of the one entry of a store. -/
theorem try_query_info_stat_witness :
    "Files._sftp-ssh._tcp".toList ≠ [] ∧ '/' ∉ "Files._sftp-ssh._tcp".toList ∧
      (((∃ f ∈ (deliver_all sample_snprint sample_backend sample_deliveries).files,
            f.file_name = "Files._sftp-ssh._tcp".toList ∧
            try_query_info (deliver_all sample_snprint sample_backend sample_deliveries)
                ⟨[]⟩ ("/".toList ++ "Files._sftp-ssh._tcp".toList) g_file_info_new =
              (g_vfs_job_succeeded ⟨[]⟩, file_info_from_file f g_file_info_new) ∧
            (file_info_from_file f g_file_info_new).name =
              some "Files._sftp-ssh._tcp".toList ∧
            (file_info_from_file f g_file_info_new).display_name = some f.name ∧
            (file_info_from_file f g_file_info_new).file_type =
              some GFileType.G_FILE_TYPE_SHORTCUT ∧
            (file_info_from_file f g_file_info_new).standard_target_uri =
              some f.target_uri) ∨
          ((∀ f ∈ (deliver_all sample_snprint sample_backend sample_deliveries).files,
              f.file_name ≠ "Files._sftp-ssh._tcp".toList) ∧
            try_query_info (deliver_all sample_snprint sample_backend sample_deliveries)
                ⟨[]⟩ ("/".toList ++ "Files._sftp-ssh._tcp".toList) g_file_info_new =
              (g_vfs_job_failed ⟨[]⟩ GIOErrorEnum.G_IO_ERROR_NOT_FOUND "File doesn't exist",
                g_file_info_new))) ∧
        (try_query_info (deliver_all sample_snprint sample_backend sample_deliveries)
            ⟨[]⟩ "/".toList g_file_info_new).1 = g_vfs_job_succeeded ⟨[]⟩ ∧
        (try_query_info (deliver_all sample_snprint sample_backend sample_deliveries)
            ⟨[]⟩ "/".toList g_file_info_new).2.name = some "/".toList ∧
        (try_query_info (deliver_all sample_snprint sample_backend sample_deliveries)
            ⟨[]⟩ "/".toList g_file_info_new).2.file_type =
          some GFileType.G_FILE_TYPE_DIRECTORY) :=
  ⟨by decide, by decide,
    try_query_info_stat _ ⟨[]⟩ g_file_info_new "Files._sftp-ssh._tcp".toList
      (by decide) (by decide)⟩

/-- For the path of a stored entry try_create_monitor reports one failure, with
the code not supported, and sets no monitor. -/
theorem try_create_monitor_entry (b : GVfsBackendDnsSd) (job : GVfsJobCreateMonitor)
    (seg : CString) (hne : seg ≠ []) (hns : '/' ∉ seg) (f : LinkFile) (hf : f ∈ b.files)
    (hname : f.file_name = seg) :
    (try_create_monitor b job ("/".toList ++ seg)).job.failures =
        job.job.failures ++ [G_IO_ERROR_NOT_SUPPORTED] ∧
      (try_create_monitor b job ("/".toList ++ seg)).monitor = job.monitor := by
  unfold try_create_monitor
  rw [lookup_link_file_segment b job.job seg hne hns]
  cases hfind : b.files.find? (fun file => file.file_name = seg) with
  | none =>
    have := List.find?_eq_none.mp hfind f hf
    simp [hname] at this
  | some g =>
    simp [GVfsJob.failures, g_vfs_job_failed, List.filterMap_append]

/-- For the root path try_create_monitor reports no failure, hands out the root
monitor and reports success. -/
theorem try_create_monitor_root (b : GVfsBackendDnsSd) (job : GVfsJobCreateMonitor) :
    try_create_monitor b job "/".toList =
      { job := g_vfs_job_succeeded job.job, monitor := some b.root_monitor } := by
  rfl

/-- Claim C10, the code at the failing input. On a backend with no entry the
request to monitor the path /nosuch reports two failures on the job, first the
code not found, reported by lookup_link_file, then the code not supported,
where the claim has exactly one failure; no monitor is set. -/
theorem try_create_monitor_missing_path_two_failures :
    (try_create_monitor sample_backend ⟨⟨[]⟩, none⟩ "/nosuch".toList).job.failures =
        [G_IO_ERROR_NOT_FOUND, G_IO_ERROR_NOT_SUPPORTED] ∧
      (try_create_monitor sample_backend ⟨⟨[]⟩, none⟩ "/nosuch".toList).monitor = none := by
  decide

/-! ## Theorems: enumerating the root and removing an entry -/

theorem file_info_from_file_name (f : LinkFile) (info : GFileInfo) :
    (file_info_from_file f info).name = some f.file_name := by
  unfold file_info_from_file
  cases f.icon <;> rfl

theorem file_info_from_file_file_type (f : LinkFile) (info : GFileInfo) :
    (file_info_from_file f info).file_type = some G_FILE_TYPE_SHORTCUT := by
  unfold file_info_from_file
  cases f.icon <;> rfl

/-- The loop of try_enumerate adds the descriptor of every file, in the order
of the list, and touches nothing else of the job. -/
theorem enumerate_loop_eq (files : List LinkFile) (job : GVfsJobEnumerate) :
    files.foldl
        (fun job file =>
          g_vfs_job_enumerate_add_info job (file_info_from_file file g_file_info_new))
        job =
      { job with
        infos := job.infos ++ files.map (fun f => file_info_from_file f g_file_info_new) } := by
  induction files generalizing job with
  | nil => simp
  | cons f files ih =>
    rw [List.foldl_cons, ih]
    simp [g_vfs_job_enumerate_add_info]

/-- What try_enumerate does on the root path. -/
theorem try_enumerate_root (b : GVfsBackendDnsSd) (job : GVfsJobEnumerate) :
    try_enumerate b job "/".toList =
      { job := g_vfs_job_succeeded job.job,
        infos := job.infos ++ b.files.map (fun f => file_info_from_file f g_file_info_new),
        done := true } := by
  unfold try_enumerate
  rw [lookup_link_file_root]
  simp only [enumerate_loop_eq, g_vfs_job_enumerate_done]

/-- Claim C11. For every store, enumerating the root succeeds and reports, after
what the job held before, exactly one file info for each entry of the store, in
the order of the store, and nothing else: the names reported are the file names
of the stored entries, and every info reported is the shortcut descriptor of a
stored entry, never the directory descriptor of the root. -/
theorem try_enumerate_root_reports_store (b : GVfsBackendDnsSd) (job : GVfsJobEnumerate) :
    (try_enumerate b job "/".toList).job = g_vfs_job_succeeded job.job ∧
      (try_enumerate b job "/".toList).done = true ∧
      (try_enumerate b job "/".toList).infos =
        job.infos ++ b.files.map (fun f => file_info_from_file f g_file_info_new) ∧
      ((try_enumerate b job "/".toList).infos.drop job.infos.length).length = b.files.length ∧
      ((try_enumerate b job "/".toList).infos.drop job.infos.length).map (fun i => i.name) =
        b.files.map (fun f => some f.file_name) ∧
      ∀ i ∈ (try_enumerate b job "/".toList).infos.drop job.infos.length,
        i.file_type = some G_FILE_TYPE_SHORTCUT ∧
          ∃ f ∈ b.files, i = file_info_from_file f g_file_info_new := by
  rw [try_enumerate_root]
  refine ⟨rfl, rfl, rfl, ?_, ?_, ?_⟩
  · simp
  · simp [Function.comp_def, file_info_from_file_name]
  · intro i hi
    simp only [List.drop_left, List.mem_map] at hi
    obtain ⟨f, hf, rfl⟩ := hi
    exact ⟨file_info_from_file_file_type f _, f, hf, rfl⟩

/-- What browse_callback does on a remove event whose key is found. -/
theorem browse_callback_remove_found (e : BrowseEvent) (b : GVfsBackendDnsSd) (f : LinkFile)
    (he : e.event = AvahiBrowserEvent.AVAHI_BROWSER_REMOVE)
    (hf : lookup_link_file_by_name_and_type b e.name e.type = some f) :
    browse_callback e b =
      { b with
        files := b.files.erase f,
        root_monitor := g_vfs_monitor_emit_event b.root_monitor G_FILE_MONITOR_EVENT_DELETED
          ("/".toList ++ f.file_name) none } := by
  unfold browse_callback
  rw [he]
  simp only [hf]

/-- What browse_callback does on a remove event whose key is not found. -/
theorem browse_callback_remove_absent (e : BrowseEvent) (b : GVfsBackendDnsSd)
    (he : e.event = AvahiBrowserEvent.AVAHI_BROWSER_REMOVE)
    (hf : lookup_link_file_by_name_and_type b e.name e.type = none) :
    browse_callback e b = b := by
  unfold browse_callback
  rw [he]
  simp only [hf]

/-- The first entry with a given key splits the list: no entry before it has
the key, and erasing it leaves the entries before and after it. -/
theorem find_key_split (l : List LinkFile) (n t : CString) (f : LinkFile)
    (h : l.find? (fun file => file.name = n ∧ file.type = t) = some f) :
    ∃ l1 l2, l = l1 ++ f :: l2 ∧ (∀ g ∈ l1, ¬ (g.name = n ∧ g.type = t)) ∧
      l.erase f = l1 ++ l2 := by
  induction l with
  | nil => simp at h
  | cons a l ih =>
    by_cases ha : a.name = n ∧ a.type = t
    · rw [List.find?_cons_of_pos _ (by simpa using ha)] at h
      cases h
      exact ⟨[], l, rfl, by simp, by simp⟩
    · rw [List.find?_cons_of_neg _ (by simpa using ha)] at h
      obtain ⟨l1, l2, h1, h2, h3⟩ := ih h
      have hfk : f.name = n ∧ f.type = t := by
        simpa using List.find?_some h
      have haf : a ≠ f := fun heq => ha (heq ▸ hfk)
      refine ⟨a :: l1, l2, by rw [h1]; rfl, ?_, ?_⟩
      · intro g hg
        rcases List.mem_cons.mp hg with hga | hgl
        · rw [hga]
          exact ha
        · exact h2 g hgl
      · rw [List.erase_cons_tail (by simpa using haf), h3]
        rfl

/-- Claim C12. For every store and every instance-removed browse event: when no
stored entry has the name and type of the event, the backend is left as it is
(the store is unchanged and no monitor event is emitted); when a stored entry
has that name and type, the first such entry is removed and every other entry
stays, in its place, and exactly one event is emitted, a deleted event whose
path is a slash followed by the file name of the removed entry; the domain and
the browsers are as they were. -/
theorem browse_callback_remove (e : BrowseEvent) (b : GVfsBackendDnsSd)
    (he : e.event = AvahiBrowserEvent.AVAHI_BROWSER_REMOVE) :
    ((∀ f ∈ b.files, ¬ (f.name = e.name ∧ f.type = e.type)) → browse_callback e b = b) ∧
      ((∃ f ∈ b.files, f.name = e.name ∧ f.type = e.type) →
        ∃ l1 f l2, b.files = l1 ++ f :: l2 ∧
          f.name = e.name ∧ f.type = e.type ∧
          (∀ g ∈ l1, ¬ (g.name = e.name ∧ g.type = e.type)) ∧
          (browse_callback e b).files = l1 ++ l2 ∧
          (browse_callback e b).root_monitor.emitted =
            b.root_monitor.emitted ++
              [⟨G_FILE_MONITOR_EVENT_DELETED, "/".toList ++ f.file_name, none⟩] ∧
          (browse_callback e b).domain = b.domain ∧
          (browse_callback e b).browsers = b.browsers) := by
  constructor
  · intro habs
    apply browse_callback_remove_absent e b he
    unfold lookup_link_file_by_name_and_type
    rw [List.find?_eq_none]
    intro f hf
    simpa using habs f hf
  · rintro ⟨g, hg, hgn, hgt⟩
    cases hf : lookup_link_file_by_name_and_type b e.name e.type with
    | none =>
      exfalso
      unfold lookup_link_file_by_name_and_type at hf
      rw [List.find?_eq_none] at hf
      have := hf g hg
      simp [hgn, hgt] at this
    | some f =>
      obtain ⟨_, hn, ht⟩ := lookup_eq_some b e.name e.type f hf
      obtain ⟨l1, l2, h1, h2, h3⟩ := find_key_split b.files e.name e.type f hf
      rw [browse_callback_remove_found e b f he hf]
      exact ⟨l1, f, l2, h1, hn, ht, h2, h3, rfl, rfl, rfl⟩

/-- Witness of claim C12: the one entry of a store is removed. -/
theorem browse_callback_remove_witness :
    sample_remove.event = AvahiBrowserEvent.AVAHI_BROWSER_REMOVE ∧
      (∃ f ∈ (deliver_all sample_snprint sample_backend sample_deliveries).files,
        f.name = sample_remove.name ∧ f.type = sample_remove.type) ∧
      ∃ l1 f l2,
        (deliver_all sample_snprint sample_backend sample_deliveries).files = l1 ++ f :: l2 ∧
          f.name = sample_remove.name ∧ f.type = sample_remove.type ∧
          (∀ g ∈ l1, ¬ (g.name = sample_remove.name ∧ g.type = sample_remove.type)) ∧
          (browse_callback sample_remove
              (deliver_all sample_snprint sample_backend sample_deliveries)).files = l1 ++ l2 ∧
          (browse_callback sample_remove
              (deliver_all sample_snprint sample_backend sample_deliveries)).root_monitor.emitted =
            (deliver_all sample_snprint sample_backend sample_deliveries).root_monitor.emitted ++
              [⟨G_FILE_MONITOR_EVENT_DELETED, "/".toList ++ f.file_name, none⟩] ∧
          (browse_callback sample_remove
              (deliver_all sample_snprint sample_backend sample_deliveries)).domain =
            (deliver_all sample_snprint sample_backend sample_deliveries).domain ∧
          (browse_callback sample_remove
              (deliver_all sample_snprint sample_backend sample_deliveries)).browsers =
            (deliver_all sample_snprint sample_backend sample_deliveries).browsers :=
  ⟨rfl, by decide,
    (browse_callback_remove sample_remove
      (deliver_all sample_snprint sample_backend sample_deliveries) rfl).2 (by decide)⟩

/-! ## Theorems: what resolve_callback inserts -/

/-- A resolve result that is dropped leaves the backend as it is. -/
theorem resolve_callback_dropped (snprint : Nat → AvahiAddress → CString) (r : ResolveResult)
    (b : GVfsBackendDnsSd) (h : r.dropped) : resolve_callback snprint r b = b := by
  unfold resolve_callback
  unfold ResolveResult.dropped at h
  split_ifs with h1 h2
  · rfl
  · rfl
  · rcases h with h | h
    · exact absurd h h1
    · exact absurd h h2

/-- A resolve result whose key is in the store leaves the backend as it is. -/
theorem resolve_callback_present (snprint : Nat → AvahiAddress → CString) (r : ResolveResult)
    (b : GVfsBackendDnsSd) (h : present b r.name r.type = true) :
    resolve_callback snprint r b = b := by
  unfold resolve_callback
  split_ifs
  · rfl
  · rfl
  · unfold present at h
    cases hl : lookup_link_file_by_name_and_type b r.name r.type with
    | none => simp [hl] at h
    | some f => rfl

/-- A resolve result that is not dropped and whose key is not in the store is
inserted at the front of the store, and one created event is emitted. -/
theorem resolve_callback_inserts (snprint : Nat → AvahiAddress → CString) (r : ResolveResult)
    (b : GVfsBackendDnsSd) (hd : ¬ r.dropped) (hp : present b r.name r.type = false) :
    resolve_callback snprint r b =
      { b with
        files := link_file_new snprint r.name r.type r.domain r.host_name r.protocol
          r.address r.port r.txt :: b.files,
        root_monitor := g_vfs_monitor_emit_event b.root_monitor G_FILE_MONITOR_EVENT_CREATED
          ("/".toList ++ encode_filename r.name r.type) none } := by
  unfold resolve_callback
  unfold ResolveResult.dropped at hd
  rw [not_or] at hd
  rw [if_neg hd.1, if_neg hd.2, (present_eq_false_iff b r.name r.type).mp hp]
  rfl

/-- Claim C16, the code at the failing inputs. The address 192.0.2.5, of family
IPv4, resolved by a reply received over IPv6 is inserted with its host literal
in brackets, and the address 2001:db8::1, of family IPv6, resolved by a reply
received over IPv4 is inserted with its host literal bare: link_file_new puts
the brackets by the protocol argument of the callback, not by address.proto. -/
theorem resolve_callback_brackets_follow_reply_protocol :
    sample_ipv4.proto = AvahiProtocol.AVAHI_PROTO_INET ∧
      (resolve_callback sample_snprint
          { sample_resolve with protocol := AvahiProtocol.AVAHI_PROTO_INET6 }
          sample_backend).files.map (fun f => f.target_uri) =
        ["sftp://[192.0.2.5]:22/home/alice".toList] ∧
      sample_ipv6.proto = AvahiProtocol.AVAHI_PROTO_INET6 ∧
      (resolve_callback sample_snprint
          { sample_resolve with
            protocol := AvahiProtocol.AVAHI_PROTO_INET, address := sample_ipv6 }
          sample_backend).files.map (fun f => f.target_uri) =
        ["sftp://2001:db8::1:22/home/alice".toList] := by
  decide

/-- Claim C20, refuted as stated: a resolve result of the type _http._tcp, which
is not in the static table, delivered to a backend with no entry adds an entry
to the store and emits a created event. -/
theorem resolve_callback_unknown_type_counterexample :
    get_method_for_type "_http._tcp".toList = none ∧
      (resolve_callback sample_snprint { sample_resolve with type := "_http._tcp".toList }
          sample_backend).files.map (fun f => (f.file_name, f.icon)) =
        [("Files._http._tcp".toList, some ⟨"text-x-generic".toList⟩)] ∧
      (resolve_callback sample_snprint { sample_resolve with type := "_http._tcp".toList }
          sample_backend).root_monitor.emitted =
        [⟨G_FILE_MONITOR_EVENT_CREATED, "/Files._http._tcp".toList, none⟩] := by
  decide

theorem get_icon_for_type_unknown (type : CString)
    (ht : type ∉ dns_sd_types.map (fun row => row.type)) :
    get_icon_for_type type = ⟨"text-x-generic".toList⟩ := by
  unfold get_icon_for_type
  have : dns_sd_types.find? (fun row => row.type = type) = none := by
    rw [List.find?_eq_none]
    intro row hrow h
    simp only [decide_eq_true_eq] at h
    exact ht (h ▸ List.mem_map_of_mem _ hrow)
  rw [this]

/-- Claim C20, amended. For every store and every resolve result whose service
type is not one of the types of the static table: when the result is dropped (a
resolver failure or a link-local IPv6 address) or an entry with its name and
type is already stored, the backend is left as it is; otherwise resolve_callback
puts in front of the store an entry with that name and type, named by
encode_filename and carrying the generic icon text-x-generic, and emits one
created event for the path of that entry. -/
theorem resolve_callback_unknown_type (snprint : Nat → AvahiAddress → CString)
    (b : GVfsBackendDnsSd) (r : ResolveResult)
    (ht : r.type ∉ dns_sd_types.map (fun row => row.type)) :
    ((r.dropped ∨ present b r.name r.type = true) → resolve_callback snprint r b = b) ∧
      ((¬ r.dropped ∧ present b r.name r.type = false) →
        ∃ f : LinkFile,
          f.name = r.name ∧ f.type = r.type ∧
            f.file_name = encode_filename r.name r.type ∧
            f.icon = some ⟨"text-x-generic".toList⟩ ∧
            (resolve_callback snprint r b).files = f :: b.files ∧
            (resolve_callback snprint r b).root_monitor.emitted =
              b.root_monitor.emitted ++
                [⟨G_FILE_MONITOR_EVENT_CREATED, "/".toList ++ f.file_name, none⟩]) := by
  constructor
  · rintro (h | h)
    · exact resolve_callback_dropped snprint r b h
    · exact resolve_callback_present snprint r b h
  · rintro ⟨hd, hp⟩
    rw [resolve_callback_inserts snprint r b hd hp]
    refine ⟨_, rfl, rfl, rfl, ?_, rfl, rfl⟩
    show some (get_icon_for_type r.type) = _
    rw [get_icon_for_type_unknown r.type ht]

/-- Witness of the amended claim C20: a service of the type _http._tcp. -/
theorem resolve_callback_unknown_type_witness :
    "_http._tcp".toList ∉ dns_sd_types.map (fun row => row.type) ∧
      (((({ sample_resolve with type := "_http._tcp".toList } : ResolveResult).dropped ∨
            present sample_backend
              ({ sample_resolve with type := "_http._tcp".toList } : ResolveResult).name
              ({ sample_resolve with type := "_http._tcp".toList } : ResolveResult).type = true) →
          resolve_callback sample_snprint { sample_resolve with type := "_http._tcp".toList }
            sample_backend = sample_backend) ∧
        ((¬ ({ sample_resolve with type := "_http._tcp".toList } : ResolveResult).dropped ∧
            present sample_backend
              ({ sample_resolve with type := "_http._tcp".toList } : ResolveResult).name
              ({ sample_resolve with type := "_http._tcp".toList } : ResolveResult).type = false) →
          ∃ f : LinkFile,
            f.name = ({ sample_resolve with type := "_http._tcp".toList } : ResolveResult).name ∧
              f.type = ({ sample_resolve with type := "_http._tcp".toList } : ResolveResult).type ∧
              f.file_name =
                encode_filename
                  ({ sample_resolve with type := "_http._tcp".toList } : ResolveResult).name
                  ({ sample_resolve with type := "_http._tcp".toList } : ResolveResult).type ∧
              f.icon = some ⟨"text-x-generic".toList⟩ ∧
              (resolve_callback sample_snprint
                  { sample_resolve with type := "_http._tcp".toList } sample_backend).files =
                f :: sample_backend.files ∧
              (resolve_callback sample_snprint
                  { sample_resolve with type := "_http._tcp".toList }
                  sample_backend).root_monitor.emitted =
                sample_backend.root_monitor.emitted ++
                  [⟨G_FILE_MONITOR_EVENT_CREATED, "/".toList ++ f.file_name, none⟩])) :=
  ⟨by decide,
    resolve_callback_unknown_type sample_snprint sample_backend
      { sample_resolve with type := "_http._tcp".toList } (by decide)⟩

/-! ## Theorems: the client, its callback and the mount -/

theorem Daemon.Keeps.refl (d : Daemon) : d.Keeps d :=
  ⟨rfl, Nat.le_refl _, fun _ h => h, Nat.le_refl _⟩

theorem Daemon.Keeps.trans {d1 d2 d3 : Daemon} (h12 : d1.Keeps d2) (h23 : d2.Keeps d3) :
    d1.Keeps d3 :=
  ⟨h23.stores.trans h12.stores, Nat.le_trans h12.calls h23.calls,
    fun c h => h23.freed c (h12.freed c h), Nat.le_trans h23.script h12.script⟩

/-- Changing the backend at one position of a list by a function under which g
does not change leaves the list of the values of g as it is. -/
theorem map_modify_of_eq {α β : Type} (g : α → β) (f : α → α) (h : ∀ a, g (f a) = g a)
    (k : Nat) (l : List α) : (l.modify f k).map g = l.map g := by
  apply List.ext_getElem?
  intro m
  rw [List.getElem?_map, List.getElem?_map, List.getElem?_modify]
  cases l[m]? with
  | none => rfl
  | some a =>
    by_cases hkm : k = m
    · simp [hkm, h]
    · simp [hkm]

/-- Changing the backend at one position by a function that returns it as it is
leaves the list as it is. -/
theorem modify_eq_self {α : Type} (f : α → α) (k : Nat) (l : List α)
    (h : ∀ a, l[k]? = some a → f a = a) : l.modify f k = l := by
  apply List.ext_getElem?
  intro m
  rw [List.getElem?_modify]
  by_cases hkm : k = m
  · subst hkm
    cases hl : l[k]? with
    | none => rfl
    | some a => simp [h a hl]
  · cases l[m]? <;> simp [hkm]

theorem Daemon.Keeps.modify_backend (d : Daemon) (k : Nat) (f : BackendObject → BackendObject)
    (h : ∀ o, remove_browsers (f o) = remove_browsers o) : d.Keeps (d.modify_backend k f) :=
  ⟨map_modify_of_eq remove_browsers f h k d.dnssd_backends, Nat.le_refl _, fun _ h => h,
    Nat.le_refl _⟩

theorem Daemon.Keeps.avahi_service_browser_new (client : Option AvahiClient)
    (type : CString) (domain : Option CString) (d : Daemon) :
    d.Keeps (avahi_service_browser_new client type domain d).2 := by
  unfold DnsSd.avahi_service_browser_new
  cases client with
  | none => exact Daemon.Keeps.refl d
  | some c =>
    cases hs : d.browser_new_script with
    | nil => exact Daemon.Keeps.refl d
    | cons ok rest => exact ⟨rfl, Nat.le_refl _, fun _ h => h, Nat.le_refl _⟩

theorem Daemon.Keeps.foldlM {α : Type} (f : Daemon → α → Option Daemon)
    (h : ∀ (d : Daemon) (a : α) (d2 : Daemon), f d a = some d2 → d.Keeps d2) (l : List α)
    (d d2 : Daemon) (hl : l.foldlM f d = some d2) : d.Keeps d2 := by
  induction l generalizing d with
  | nil =>
    rw [List.foldlM_nil] at hl
    cases hl
    exact Daemon.Keeps.refl _
  | cons a l ih =>
    rw [List.foldlM_cons] at hl
    cases hf : f d a with
    | none =>
      rw [hf] at hl
      cases hl
    | some d1 =>
      rw [hf] at hl
      exact (h d a d1 hf).trans (ih d1 hl)

theorem Daemon.Keeps.browse_type_with
    (get_client : Daemon → Option (Option AvahiClient × Daemon))
    (hget : ∀ (d : Daemon) r, get_client d = some r → d.Keeps r.2) (k : Nat) (type : CString)
    (d d2 : Daemon) (h : browse_type_with get_client k type d = some d2) : d.Keeps d2 := by
  unfold DnsSd.browse_type_with at h
  cases hgc : get_client d with
  | none =>
    rw [hgc] at h
    cases h
  | some r =>
    rcases r with ⟨client, d1⟩
    have h1 := hget d _ hgc
    rw [hgc] at h
    dsimp only at h h1
    refine h1.trans ?_
    cases hb : d1.dnssd_backends[k]? with
    | none =>
      rw [hb] at h
      cases h
      exact Daemon.Keeps.refl _
    | some backend =>
      rw [hb] at h
      dsimp only at h
      cases hdom : backend.domain with
      | none =>
        rw [hdom] at h
        cases h
      | some name =>
        rw [hdom] at h
        dsimp only at h
        have hb := Daemon.Keeps.avahi_service_browser_new client type
          (if name ≠ "local".toList then some name else none) d1
        rcases hsb : DnsSd.avahi_service_browser_new client type
          (if name ≠ "local".toList then some name else none) d1 with ⟨sb, d3⟩
        rw [hsb] at hb h
        dsimp only at hb h
        refine hb.trans ?_
        cases sb with
        | none =>
          cases h
          exact Daemon.Keeps.refl _
        | some sb =>
          cases h
          exact Daemon.Keeps.modify_backend _ k _ (fun _ => rfl)

theorem Daemon.Keeps.add_browsers_with
    (get_client : Daemon → Option (Option AvahiClient × Daemon))
    (hget : ∀ (d : Daemon) r, get_client d = some r → d.Keeps r.2) (k : Nat)
    (d d2 : Daemon) (h : add_browsers_with get_client k d = some d2) : d.Keeps d2 :=
  Daemon.Keeps.foldlM _
    (fun (d : Daemon) (row : DnsSdType) d2 =>
      Daemon.Keeps.browse_type_with get_client hget k row.type d d2)
    dns_sd_types d d2 h

theorem map_remove_browsers_idem (l : List BackendObject) :
    (l.map remove_browsers).map remove_browsers = l.map remove_browsers := by
  rw [List.map_map]
  rfl

theorem Daemon.Keeps.disconnected (d : Daemon) (client : AvahiClient) :
    d.Keeps (d.disconnected client) :=
  ⟨map_remove_browsers_idem _, Nat.le_refl _, fun _ h => List.mem_append_left _ h,
    Nat.le_refl _⟩

/-- The handler of a disconnect is the removal of the browsers and of the
client followed by a call of get_global_avahi_client. -/
theorem avahi_client_callback_with_disconnected
    (get_client : Daemon → Option (Option AvahiClient × Daemon)) (client : AvahiClient)
    (d : Daemon) (hc : client.errno = AvahiErrorCode.AVAHI_ERR_DISCONNECTED) :
    avahi_client_callback_with get_client client AvahiClientState.AVAHI_CLIENT_FAILURE d =
      (get_client (d.disconnected client)).map (fun r => r.2) := by
  unfold avahi_client_callback_with Daemon.disconnected
  simp only [hc, if_true]
  by_cases hg : d.global_client = none
  · simp only [hg, if_true]
    cases get_client _ <;> rfl
  · simp only [hg, if_false]
    cases get_client _ <;> rfl

theorem Daemon.Keeps.avahi_client_callback_with
    (get_client : Daemon → Option (Option AvahiClient × Daemon))
    (hget : ∀ (d : Daemon) r, get_client d = some r → d.Keeps r.2) (client : AvahiClient)
    (state : AvahiClientState) (d d2 : Daemon)
    (h : avahi_client_callback_with get_client client state d = some d2) : d.Keeps d2 := by
  by_cases hs : state = AvahiClientState.AVAHI_CLIENT_FAILURE
  · subst hs
    by_cases hc : client.errno = AvahiErrorCode.AVAHI_ERR_DISCONNECTED
    · rw [avahi_client_callback_with_disconnected get_client client d hc] at h
      cases hg : get_client (d.disconnected client) with
      | none =>
        rw [hg] at h
        cases h
      | some r =>
        rw [hg] at h
        cases h
        exact (Daemon.Keeps.disconnected d client).trans (hget _ _ hg)
    · unfold DnsSd.avahi_client_callback_with at h
      simp only [hc, if_true, if_false] at h
      cases h
      split_ifs
      · exact ⟨rfl, Nat.le_refl _, fun _ h => h, Nat.le_refl _⟩
      · exact Daemon.Keeps.refl d
  · unfold DnsSd.avahi_client_callback_with at h
    simp only [hs, if_false] at h
    have h0 : d.Keeps (if d.global_client = none then { d with global_client := some client }
        else d) := by
      split_ifs
      · exact ⟨rfl, Nat.le_refl _, fun _ h => h, Nat.le_refl _⟩
      · exact Daemon.Keeps.refl d
    by_cases hr : state = AvahiClientState.AVAHI_CLIENT_S_RUNNING
    · simp only [hr, if_true] at h
      exact h0.trans (Daemon.Keeps.foldlM _
        (fun (d : Daemon) (k : Nat) d2 =>
          Daemon.Keeps.add_browsers_with get_client hget k d d2) _ _ _ h)
    · simp only [hr, if_false] at h
      cases h
      exact h0
theorem avahi_client_new_nil
    (callback : AvahiClient → AvahiClientState → Daemon → Option Daemon)
    (d : Daemon) (hs : d.client_new_script = []) :
    avahi_client_new callback d =
      some (none, { d with client_new_calls := d.client_new_calls + 1 }) := by
  unfold avahi_client_new
  simp only [hs]

theorem avahi_client_new_cons
    (callback : AvahiClient → AvahiClientState → Daemon → Option Daemon)
    (d : Daemon) (outcome : ClientNew) (rest : List ClientNew)
    (hs : d.client_new_script = outcome :: rest) :
    avahi_client_new callback d =
      (outcome.notified.foldlM (fun d state => callback outcome.client state d)
          { d with client_new_calls := d.client_new_calls + 1,
                   client_new_script := rest }).map
        (fun d => (outcome.result, d)) := by
  unfold avahi_client_new
  simp only [hs]
  cases List.foldlM (fun d state => callback outcome.client state d)
    ({ d with client_new_calls := d.client_new_calls + 1, client_new_script := rest } : Daemon)
    outcome.notified <;> rfl

/-- A call of get_global_avahi_client made when the library is marked as
initialised returns the stored client and changes nothing. -/
theorem get_global_avahi_client_with_initialized
    (client_new : Daemon → Option (Option AvahiClient × Daemon)) (d : Daemon)
    (h : d.avahi_initialized = true) :
    get_global_avahi_client_with client_new d = some (d.global_client, d) := by
  unfold get_global_avahi_client_with
  simp [h]

/-- A call of get_global_avahi_client made when the library is not marked as
initialised calls the constructor and stores what it returns. -/
theorem get_global_avahi_client_with_uninitialized
    (client_new : Daemon → Option (Option AvahiClient × Daemon)) (d : Daemon)
    (h : d.avahi_initialized = false) :
    get_global_avahi_client_with client_new d =
      (client_new d.at_client_new).map
        (fun r => (r.1, { r.2 with global_client := r.1 })) := by
  unfold get_global_avahi_client_with
  have hpoll : (if d.glib_poll = false then
      ({ d with avahi_initialized := true, glib_poll := true } : Daemon)
      else { d with avahi_initialized := true }) = d.at_client_new := by
    unfold Daemon.at_client_new
    cases hg : d.glib_poll <;> simp [hg]
  simp only [h, if_true, hpoll]
  cases client_new d.at_client_new with
  | none => rfl
  | some r =>
    rcases r with ⟨client, d1⟩
    dsimp only [Option.map_some']
    split_ifs with hn
    · rw [← hn]
    · rfl

theorem Daemon.Keeps.avahi_client_new
    (callback : AvahiClient → AvahiClientState → Daemon → Option Daemon)
    (hcb : ∀ (client : AvahiClient) (state : AvahiClientState) (d d2 : Daemon),
      callback client state d = some d2 → d.Keeps d2)
    (d : Daemon) (r : Option AvahiClient × Daemon) (h : avahi_client_new callback d = some r) :
    d.Keeps r.2 := by
  cases hs : d.client_new_script with
  | nil =>
    rw [avahi_client_new_nil callback d hs] at h
    cases h
    exact ⟨rfl, Nat.le_succ _, fun _ h => h, Nat.le_refl _⟩
  | cons outcome rest =>
    rw [avahi_client_new_cons callback d outcome rest hs] at h
    have h0 : d.Keeps { d with client_new_calls := d.client_new_calls + 1,
                               client_new_script := rest } :=
      ⟨rfl, Nat.le_succ _, fun _ h => h, by rw [hs]; exact Nat.le_succ _⟩
    cases hf : List.foldlM (fun d state => callback outcome.client state d)
        ({ d with client_new_calls := d.client_new_calls + 1, client_new_script := rest } :
          Daemon) outcome.notified with
    | none =>
      rw [hf] at h
      cases h
    | some d1 =>
      rw [hf] at h
      cases h
      exact h0.trans (Daemon.Keeps.foldlM _
        (fun (d : Daemon) (state : AvahiClientState) d2 => hcb outcome.client state d d2)
        outcome.notified _ _ hf)

theorem Daemon.Keeps.get_global_avahi_client_with
    (client_new : Daemon → Option (Option AvahiClient × Daemon))
    (hnew : ∀ (d : Daemon) r, client_new d = some r → d.Keeps r.2) (d : Daemon)
    (r : Option AvahiClient × Daemon) (h : get_global_avahi_client_with client_new d = some r) :
    d.Keeps r.2 := by
  cases hi : d.avahi_initialized with
  | true =>
    rw [get_global_avahi_client_with_initialized client_new d hi] at h
    cases h
    exact Daemon.Keeps.refl d
  | false =>
    rw [get_global_avahi_client_with_uninitialized client_new d hi] at h
    have h0 : d.Keeps d.at_client_new := ⟨rfl, Nat.le_refl _, fun _ h => h, Nat.le_refl _⟩
    cases hn : client_new d.at_client_new with
    | none =>
      rw [hn] at h
      cases h
    | some r1 =>
      rw [hn] at h
      cases h
      exact (h0.trans (hnew _ _ hn)).trans ⟨rfl, Nat.le_refl _, fun _ h => h, Nat.le_refl _⟩

theorem Daemon.Keeps.get_global_avahi_client_fuel (fuel : Nat) (d : Daemon)
    (r : Option AvahiClient × Daemon) (h : get_global_avahi_client_fuel fuel d = some r) :
    d.Keeps r.2 := by
  induction fuel generalizing d r with
  | zero =>
    refine Daemon.Keeps.get_global_avahi_client_with _ ?_ d r h
    intro d r hr
    cases hr
    exact ⟨rfl, Nat.le_succ _, fun _ h => h, Nat.le_refl _⟩
  | succ fuel ih =>
    exact Daemon.Keeps.get_global_avahi_client_with _
      (Daemon.Keeps.avahi_client_new _
        (Daemon.Keeps.avahi_client_callback_with _ ih)) d r h

theorem Daemon.Keeps.get_global_avahi_client (d : Daemon) (r : Option AvahiClient × Daemon)
    (h : get_global_avahi_client d = some r) : d.Keeps r.2 :=
  Daemon.Keeps.get_global_avahi_client_fuel _ d r h

theorem Daemon.Keeps.avahi_client_callback (client : AvahiClient) (state : AvahiClientState)
    (d d2 : Daemon) (h : avahi_client_callback client state d = some d2) : d.Keeps d2 :=
  Daemon.Keeps.avahi_client_callback_with _ Daemon.Keeps.get_global_avahi_client client state
    d d2 h

/-- A call of get_global_avahi_client made when the library is marked as
initialised returns the stored client and changes nothing. -/
theorem get_global_avahi_client_initialized (d : Daemon) (h : d.avahi_initialized = true) :
    get_global_avahi_client d = some (d.global_client, d) := by
  unfold get_global_avahi_client
  cases d.client_new_script.length <;>
    exact get_global_avahi_client_with_initialized _ d h

/-- A call of get_global_avahi_client made when the library is not marked as
initialised calls the constructor. -/
theorem get_global_avahi_client_calls_constructor (d : Daemon)
    (h : d.avahi_initialized = false) (r : Option AvahiClient × Daemon)
    (hr : get_global_avahi_client d = some r) :
    d.client_new_calls < r.2.client_new_calls := by
  unfold get_global_avahi_client at hr
  cases hfuel : d.client_new_script.length with
  | zero =>
    rw [hfuel, get_global_avahi_client_fuel,
      get_global_avahi_client_with_uninitialized _ d h] at hr
    cases hr
    exact Nat.lt_succ_self _
  | succ fuel =>
    rw [hfuel, get_global_avahi_client_fuel,
      get_global_avahi_client_with_uninitialized _ d h] at hr
    cases hn : avahi_client_new
        (avahi_client_callback_with (get_global_avahi_client_fuel fuel)) d.at_client_new with
    | none =>
      rw [hn] at hr
      cases hr
    | some r1 =>
      rw [hn] at hr
      cases hr
      show d.at_client_new.client_new_calls < r1.2.client_new_calls
      generalize d.at_client_new = d1 at hn
      cases hs : d1.client_new_script with
      | nil =>
        rw [avahi_client_new_nil _ d1 hs] at hn
        cases hn
        exact Nat.lt_succ_self _
      | cons outcome rest =>
        rw [avahi_client_new_cons _ d1 outcome rest hs] at hn
        cases hf : List.foldlM
            (fun d state => avahi_client_callback_with (get_global_avahi_client_fuel fuel)
              outcome.client state d)
            ({ d1 with client_new_calls := d1.client_new_calls + 1,
                       client_new_script := rest } : Daemon) outcome.notified with
        | none =>
          rw [hf] at hn
          cases hn
        | some d2 =>
          rw [hf] at hn
          cases hn
          have hfold := (Daemon.Keeps.foldlM _
            (fun (d : Daemon) (state : AvahiClientState) d2 =>
              Daemon.Keeps.avahi_client_callback_with _
                (Daemon.Keeps.get_global_avahi_client_fuel fuel) outcome.client state d d2)
            outcome.notified _ _ hf).calls
          exact Nat.lt_of_lt_of_le (Nat.lt_succ_self _) hfold

/-- The backends of two states related by Keeps agree, position by position, on
everything but the browsers. -/
theorem Daemon.Keeps.backend_at {d d2 : Daemon} (h : d.Keeps d2) (k : Nat) (o : BackendObject)
    (hk : d.dnssd_backends[k]? = some o) :
    ∃ o2, d2.dnssd_backends[k]? = some o2 ∧ remove_browsers o2 = remove_browsers o := by
  have hs := congrArg (fun l => l[k]?) h.stores
  simp only [List.getElem?_map, hk, Option.map_some'] at hs
  cases h2 : d2.dnssd_backends[k]? with
  | none => simp [h2] at hs
  | some o2 =>
    simp only [h2, Option.map_some', Option.some.injEq] at hs
    exact ⟨o2, rfl, hs⟩

theorem remove_browsers_eq (o o2 : BackendObject)
    (h : remove_browsers o2 = remove_browsers o) :
    o2.root_monitor = o.root_monitor ∧ o2.domain = o.domain ∧
      o2.mount_spec = o.mount_spec ∧ o2.files = o.files := by
  unfold remove_browsers at h
  simp only [BackendObject.mk.injEq] at h
  exact ⟨h.1, h.2.1, h.2.2.1, h.2.2.2.1⟩

theorem mounted_of_remove_browsers_eq (o o2 : BackendObject) (b : GVfsBackendDnsSd)
    (h : remove_browsers o2 = remove_browsers o) (hm : o.mounted = some b) :
    o2.mounted = some { b with browsers := o2.browsers } := by
  obtain ⟨hr, hd, _, hf⟩ := remove_browsers_eq o o2 h
  unfold BackendObject.mounted at hm ⊢
  rw [hr, hd, hf]
  cases hrm : o.root_monitor with
  | none => simp [hrm] at hm
  | some m =>
    cases hdm : o.domain with
    | none => simp [hrm, hdm] at hm
    | some dom =>
      simp only [hrm, hdm, Option.some.injEq] at hm
      subst hm
      rfl

theorem put_mounted (o : BackendObject) (b : GVfsBackendDnsSd) (hm : o.mounted = some b) :
    o.put b = o := by
  unfold BackendObject.mounted at hm
  cases hrm : o.root_monitor with
  | none => simp [hrm] at hm
  | some m =>
    cases hdm : o.domain with
    | none => simp [hrm, hdm] at hm
    | some dom =>
      simp only [hrm, hdm, Option.some.injEq] at hm
      subst hm
      cases o
      simp_all [BackendObject.put]

theorem present_congr (b b2 : GVfsBackendDnsSd) (h : b2.files = b.files) (n t : CString) :
    present b2 n t = present b n t := by
  unfold present lookup_link_file_by_name_and_type
  rw [h]

/-- A resolve result whose key is in the store of the backend it is delivered to
changes nothing in the process. -/
theorem resolve_callback_at_present (snprint : Nat → AvahiAddress → CString) (k : Nat)
    (r : ResolveResult) (d : Daemon) (o : BackendObject) (b : GVfsBackendDnsSd)
    (hk : d.dnssd_backends[k]? = some o) (hm : o.mounted = some b)
    (hp : present b r.name r.type = true) : resolve_callback_at snprint k r d = d := by
  unfold resolve_callback_at Daemon.modify_backend
  rw [modify_eq_self]
  intro a ha
  rw [hk] at ha
  cases ha
  simp only [hm]
  rw [resolve_callback_present snprint r b hp]
  exact put_mounted o b hm

theorem resolve_callback_at_all_present (snprint : Nat → AvahiAddress → CString) (k : Nat)
    (rs : List ResolveResult) (d : Daemon) (o : BackendObject) (b : GVfsBackendDnsSd)
    (hk : d.dnssd_backends[k]? = some o) (hm : o.mounted = some b)
    (hp : ∀ r ∈ rs, present b r.name r.type = true) :
    rs.foldl (fun d r => resolve_callback_at snprint k r d) d = d := by
  induction rs with
  | nil => rfl
  | cons r rs ih =>
    rw [List.foldl_cons,
      resolve_callback_at_present snprint k r d o b hk hm (hp r (List.mem_cons_self _ _))]
    exact ih (fun r hr => hp r (List.mem_cons_of_mem _ hr))

/-! ## Theorems: when every backend has its domain, the process lives on -/

theorem Daemon.Keeps.domains_set {d d2 : Daemon} (h : d.Keeps d2)
    (hd : d.domains_set = true) : d2.domains_set = true := by
  have hs := congrArg (List.map (fun o : BackendObject => o.domain.isSome)) h.stores
  simp only [List.map_map, Function.comp_def, remove_browsers] at hs
  unfold Daemon.domains_set at hd ⊢
  rw [List.all_eq_true] at hd ⊢
  intro o ho
  have hm : o.domain.isSome ∈ d2.dnssd_backends.map (fun o => o.domain.isSome) :=
    List.mem_map_of_mem _ ho
  rw [hs, List.mem_map] at hm
  obtain ⟨o1, ho1, heq⟩ := hm
  rw [← heq]
  exact hd o1 ho1

theorem domains_set_getElem? (d : Daemon) (hd : d.domains_set = true) (k : Nat)
    (o : BackendObject) (hk : d.dnssd_backends[k]? = some o) : ∃ name, o.domain = some name := by
  unfold Daemon.domains_set at hd
  rw [List.all_eq_true] at hd
  have := hd o (List.getElem?_mem hk)
  exact Option.isSome_iff_exists.mp this

theorem foldlM_lives {α : Type} (f : Daemon → α → Option Daemon)
    (hk : ∀ (d : Daemon) (a : α) (d2 : Daemon), f d a = some d2 → d.Keeps d2)
    (ht : ∀ (d : Daemon) (a : α), d.domains_set = true → ∃ d2, f d a = some d2)
    (l : List α) (d : Daemon) (hd : d.domains_set = true) : ∃ d2, l.foldlM f d = some d2 := by
  induction l generalizing d with
  | nil => exact ⟨d, rfl⟩
  | cons a l ih =>
    obtain ⟨d1, h1⟩ := ht d a hd
    obtain ⟨d2, h2⟩ := ih d1 ((hk d a d1 h1).domains_set hd)
    refine ⟨d2, ?_⟩
    rw [List.foldlM_cons, h1]
    exact h2

theorem browse_type_with_lives (get_client : Daemon → Option (Option AvahiClient × Daemon))
    (hget : ∀ (d : Daemon) r, get_client d = some r → d.Keeps r.2)
    (hlive : ∀ d : Daemon, d.domains_set = true → ∃ r, get_client d = some r)
    (k : Nat) (type : CString) (d : Daemon) (hd : d.domains_set = true) :
    ∃ d2, browse_type_with get_client k type d = some d2 := by
  obtain ⟨r, hr⟩ := hlive d hd
  rcases r with ⟨client, d1⟩
  have hd1 := (hget d _ hr).domains_set hd
  unfold DnsSd.browse_type_with
  rw [hr]
  dsimp only
  cases hb : d1.dnssd_backends[k]? with
  | none => exact ⟨_, rfl⟩
  | some backend =>
    obtain ⟨name, hname⟩ := domains_set_getElem? d1 hd1 k backend hb
    dsimp only
    rw [hname]
    dsimp only
    rcases DnsSd.avahi_service_browser_new client type
      (if name ≠ "local".toList then some name else none) d1 with ⟨sb, d3⟩
    cases sb with
    | none => exact ⟨_, rfl⟩
    | some sb => exact ⟨_, rfl⟩

theorem add_browsers_with_lives (get_client : Daemon → Option (Option AvahiClient × Daemon))
    (hget : ∀ (d : Daemon) r, get_client d = some r → d.Keeps r.2)
    (hlive : ∀ d : Daemon, d.domains_set = true → ∃ r, get_client d = some r)
    (k : Nat) (d : Daemon) (hd : d.domains_set = true) :
    ∃ d2, add_browsers_with get_client k d = some d2 :=
  foldlM_lives _
    (fun (d : Daemon) (row : DnsSdType) d2 =>
      Daemon.Keeps.browse_type_with get_client hget k row.type d d2)
    (fun (d : Daemon) (row : DnsSdType) =>
      browse_type_with_lives get_client hget hlive k row.type d)
    dns_sd_types d hd

theorem avahi_client_callback_with_lives
    (get_client : Daemon → Option (Option AvahiClient × Daemon))
    (hget : ∀ (d : Daemon) r, get_client d = some r → d.Keeps r.2)
    (hlive : ∀ d : Daemon, d.domains_set = true → ∃ r, get_client d = some r)
    (client : AvahiClient) (state : AvahiClientState) (d : Daemon)
    (hd : d.domains_set = true) :
    ∃ d2, avahi_client_callback_with get_client client state d = some d2 := by
  by_cases hs : state = AvahiClientState.AVAHI_CLIENT_FAILURE
  · subst hs
    by_cases hc : client.errno = AvahiErrorCode.AVAHI_ERR_DISCONNECTED
    · rw [avahi_client_callback_with_disconnected get_client client d hc]
      obtain ⟨r, hr⟩ := hlive _ ((Daemon.Keeps.disconnected d client).domains_set hd)
      exact ⟨r.2, by rw [hr]; rfl⟩
    · unfold DnsSd.avahi_client_callback_with
      simp only [hc, if_true, if_false]
      exact ⟨_, rfl⟩
  · unfold DnsSd.avahi_client_callback_with
    simp only [hs, if_false]
    have h0 : (if d.global_client = none then { d with global_client := some client }
        else d).domains_set = true := by
      split_ifs
      · exact hd
      · exact hd
    by_cases hr : state = AvahiClientState.AVAHI_CLIENT_S_RUNNING
    · simp only [hr, if_true]
      exact foldlM_lives _
        (fun (d : Daemon) (k : Nat) d2 => Daemon.Keeps.add_browsers_with get_client hget k d d2)
        (fun (d : Daemon) (k : Nat) => add_browsers_with_lives get_client hget hlive k d)
        _ _ h0
    · simp only [hr, if_false]
      exact ⟨_, rfl⟩

theorem avahi_client_new_lives
    (callback : AvahiClient → AvahiClientState → Daemon → Option Daemon)
    (hcb : ∀ (client : AvahiClient) (state : AvahiClientState) (d d2 : Daemon),
      callback client state d = some d2 → d.Keeps d2)
    (hlive : ∀ (client : AvahiClient) (state : AvahiClientState) (d : Daemon),
      d.domains_set = true → ∃ d2, callback client state d = some d2)
    (d : Daemon) (hd : d.domains_set = true) : ∃ r, avahi_client_new callback d = some r := by
  cases hs : d.client_new_script with
  | nil => exact ⟨_, avahi_client_new_nil callback d hs⟩
  | cons outcome rest =>
    rw [avahi_client_new_cons callback d outcome rest hs]
    obtain ⟨d2, h2⟩ := foldlM_lives _
      (fun (d : Daemon) (state : AvahiClientState) d2 => hcb outcome.client state d d2)
      (fun (d : Daemon) (state : AvahiClientState) => hlive outcome.client state d)
      outcome.notified
      ({ d with client_new_calls := d.client_new_calls + 1, client_new_script := rest } : Daemon)
      hd
    exact ⟨_, by rw [h2]; rfl⟩

theorem get_global_avahi_client_with_lives
    (client_new : Daemon → Option (Option AvahiClient × Daemon))
    (hlive : ∀ d : Daemon, d.domains_set = true → ∃ r, client_new d = some r)
    (d : Daemon) (hd : d.domains_set = true) :
    ∃ r, get_global_avahi_client_with client_new d = some r := by
  cases hi : d.avahi_initialized with
  | true => exact ⟨_, get_global_avahi_client_with_initialized client_new d hi⟩
  | false =>
    rw [get_global_avahi_client_with_uninitialized client_new d hi]
    obtain ⟨r, hr⟩ := hlive d.at_client_new hd
    exact ⟨_, by rw [hr]; rfl⟩

theorem get_global_avahi_client_fuel_lives (fuel : Nat) (d : Daemon)
    (hd : d.domains_set = true) : ∃ r, get_global_avahi_client_fuel fuel d = some r := by
  induction fuel generalizing d with
  | zero =>
    exact get_global_avahi_client_with_lives _ (fun d _ => ⟨_, rfl⟩) d hd
  | succ fuel ih =>
    exact get_global_avahi_client_with_lives _
      (avahi_client_new_lives _
        (Daemon.Keeps.avahi_client_callback_with _
          (Daemon.Keeps.get_global_avahi_client_fuel fuel))
        (avahi_client_callback_with_lives _
          (Daemon.Keeps.get_global_avahi_client_fuel fuel) ih)) d hd

/-- In a process in which every backend has its domain, get_global_avahi_client
returns. -/
theorem get_global_avahi_client_lives (d : Daemon) (hd : d.domains_set = true) :
    ∃ r, get_global_avahi_client d = some r :=
  get_global_avahi_client_fuel_lives _ d hd

/-- In a process in which every backend has its domain, avahi_client_callback
returns. -/
theorem avahi_client_callback_lives (client : AvahiClient) (state : AvahiClientState)
    (d : Daemon) (hd : d.domains_set = true) :
    ∃ d2, avahi_client_callback client state d = some d2 :=
  avahi_client_callback_with_lives _ Daemon.Keeps.get_global_avahi_client
    get_global_avahi_client_lives client state d hd

/-- In a process in which every backend has its domain, the store of a mounted
backend outlives a disconnect and any client notifications that follow it:
resolve results for keys of the store, with any addresses, ports and attributes,
then leave the entries, their names and URIs and the monitor as they were. -/
theorem reconnect_keeps_store_of_domains_set (snprint : Nat → AvahiAddress → CString)
    (d : Daemon) (k : Nat) (o : BackendObject) (b : GVfsBackendDnsSd) (client : AvahiClient)
    (notes : List (AvahiClient × AvahiClientState)) (rs : List ResolveResult)
    (hd : d.domains_set = true)
    (hk : d.dnssd_backends[k]? = some o) (hm : o.mounted = some b)
    (hrs : ∀ r ∈ rs, present b r.name r.type = true) :
    ∃ d2 o2,
      (avahi_client_callback client AvahiClientState.AVAHI_CLIENT_FAILURE d).bind
          (fun d1 => notes.foldlM (fun d n => avahi_client_callback n.1 n.2 d) d1) = some d2 ∧
        (rs.foldl (fun d r => resolve_callback_at snprint k r d) d2).dnssd_backends[k]? =
          some o2 ∧
        o2.files = b.files ∧ o2.root_monitor = some b.root_monitor ∧
        o2.domain = some b.domain := by
  obtain ⟨d1, h1⟩ := avahi_client_callback_lives client AvahiClientState.AVAHI_CLIENT_FAILURE d hd
  have hk1 := Daemon.Keeps.avahi_client_callback _ _ d d1 h1
  obtain ⟨d2, h2⟩ := foldlM_lives
    (fun (d : Daemon) (n : AvahiClient × AvahiClientState) => avahi_client_callback n.1 n.2 d)
    (fun d n d2 => Daemon.Keeps.avahi_client_callback n.1 n.2 d d2)
    (fun d n => avahi_client_callback_lives n.1 n.2 d) notes d1 (hk1.domains_set hd)
  have hk2 := hk1.trans (Daemon.Keeps.foldlM
    (fun (d : Daemon) (n : AvahiClient × AvahiClientState) => avahi_client_callback n.1 n.2 d)
    (fun d n d2 => Daemon.Keeps.avahi_client_callback n.1 n.2 d d2) notes d1 d2 h2)
  obtain ⟨o2, ho2, hrb⟩ := hk2.backend_at k o hk
  have hm2 := mounted_of_remove_browsers_eq o o2 b hrb hm
  have hp2 : ∀ r ∈ rs, present { b with browsers := o2.browsers } r.name r.type = true := by
    intro r hr
    rw [present_congr b { b with browsers := o2.browsers } rfl]
    exact hrs r hr
  refine ⟨d2, o2, ?_, ?_, ?_⟩
  · rw [h1]
    exact h2
  · rw [resolve_callback_at_all_present snprint k rs _ o2 _ ho2 hm2 hp2]
    exact ho2
  · obtain ⟨hr, hdm, _, hf⟩ := remove_browsers_eq o o2 hrb
    unfold BackendObject.mounted at hm
    split at hm
    · cases hm
      refine ⟨hf, ?_, ?_⟩
      · rw [hr]
        assumption
      · rw [hdm]
        assumption
    · cases hm

/-- The client callback for a state that is neither failure nor running only
stores the client when none is stored. -/
theorem avahi_client_callback_with_other
    (get_client : Daemon → Option (Option AvahiClient × Daemon)) (client : AvahiClient)
    (state : AvahiClientState) (d : Daemon)
    (hf : state ≠ AvahiClientState.AVAHI_CLIENT_FAILURE)
    (hr : state ≠ AvahiClientState.AVAHI_CLIENT_S_RUNNING) :
    avahi_client_callback_with get_client client state d =
      some (if d.global_client = none then { d with global_client := some client } else d) := by
  unfold avahi_client_callback_with
  simp only [hf, hr, if_false]

theorem avahi_client_callback_with_other_backends
    (get_client : Daemon → Option (Option AvahiClient × Daemon)) (client : AvahiClient)
    (states : List AvahiClientState) (d : Daemon)
    (h : ∀ s ∈ states, s ≠ AvahiClientState.AVAHI_CLIENT_FAILURE ∧
      s ≠ AvahiClientState.AVAHI_CLIENT_S_RUNNING) :
    ∃ d2, states.foldlM (fun d state => avahi_client_callback_with get_client client state d)
        d = some d2 ∧ d2.dnssd_backends = d.dnssd_backends := by
  induction states generalizing d with
  | nil => exact ⟨d, rfl, rfl⟩
  | cons s states ih =>
    rw [List.foldlM_cons, avahi_client_callback_with_other get_client client s d
        (h s (List.mem_cons_self _ _)).1 (h s (List.mem_cons_self _ _)).2]
    obtain ⟨d2, h2, hb⟩ := ih
      (if d.global_client = none then { d with global_client := some client } else d)
      (fun s hs => h s (List.mem_cons_of_mem _ hs))
    refine ⟨d2, h2, ?_⟩
    rw [hb]
    split_ifs <;> rfl

/-- A new session that does not report the states failure or running while it
is being opened returns and leaves the backends as they are. -/
theorem get_global_avahi_client_quiet (d : Daemon) (hi : d.avahi_initialized = false)
    (h : ∀ outcome, d.client_new_script.head? = some outcome →
      ∀ s ∈ outcome.notified, s ≠ AvahiClientState.AVAHI_CLIENT_FAILURE ∧
        s ≠ AvahiClientState.AVAHI_CLIENT_S_RUNNING) :
    ∃ r, get_global_avahi_client d = some r ∧ r.2.dnssd_backends = d.dnssd_backends := by
  unfold get_global_avahi_client
  cases hs : d.client_new_script with
  | nil =>
    rw [List.length_nil, get_global_avahi_client_fuel,
      get_global_avahi_client_with_uninitialized _ d hi]
    exact ⟨_, rfl, rfl⟩
  | cons outcome rest =>
    rw [List.length_cons, get_global_avahi_client_fuel,
      get_global_avahi_client_with_uninitialized _ d hi,
      avahi_client_new_cons _ d.at_client_new outcome rest hs]
    obtain ⟨d2, h2, hb⟩ := avahi_client_callback_with_other_backends
      (get_global_avahi_client_fuel rest.length) outcome.client outcome.notified
      ({ d.at_client_new with client_new_calls := d.at_client_new.client_new_calls + 1,
                              client_new_script := rest } : Daemon)
      (h outcome (by rw [hs]; rfl))
    rw [h2]
    exact ⟨_, rfl, hb⟩

theorem map_store_of_remove_browsers (l l2 : List BackendObject)
    (h : l2.map remove_browsers = l.map remove_browsers) :
    l2.map (fun o => (o.files, o.root_monitor)) = l.map (fun o => (o.files, o.root_monitor)) := by
  have := congrArg (List.map (fun o : BackendObject => (o.files, o.root_monitor))) h
  simpa [List.map_map, Function.comp_def, remove_browsers] using this

/-- Whenever the handler of a client failure whose error is disconnected
returns, the entry list and the monitor of every backend are as they were, the
client has been freed and the constructor has been called for a new session. It
returns when every backend has its domain, and also when the new session does
not report the states failure or running while it is opened; in the latter case
the browser list of every backend is empty afterwards. -/
theorem avahi_client_callback_disconnected_returns (client : AvahiClient) (d : Daemon)
    (hc : client.errno = AvahiErrorCode.AVAHI_ERR_DISCONNECTED) :
    (∀ d2, avahi_client_callback client AvahiClientState.AVAHI_CLIENT_FAILURE d = some d2 →
        d2.dnssd_backends.map (fun o => (o.files, o.root_monitor)) =
            d.dnssd_backends.map (fun o => (o.files, o.root_monitor)) ∧
          client ∈ d2.freed_clients ∧
          d.client_new_calls < d2.client_new_calls) ∧
      (d.domains_set = true →
        ∃ d2, avahi_client_callback client AvahiClientState.AVAHI_CLIENT_FAILURE d = some d2) ∧
      ((∀ outcome, d.client_new_script.head? = some outcome →
          ∀ s ∈ outcome.notified, s ≠ AvahiClientState.AVAHI_CLIENT_FAILURE ∧
            s ≠ AvahiClientState.AVAHI_CLIENT_S_RUNNING) →
        ∃ d2, avahi_client_callback client AvahiClientState.AVAHI_CLIENT_FAILURE d = some d2 ∧
          ∀ o ∈ d2.dnssd_backends, o.browsers = []) := by
  have heq : avahi_client_callback client AvahiClientState.AVAHI_CLIENT_FAILURE d =
      (get_global_avahi_client (d.disconnected client)).map (fun r => r.2) :=
    avahi_client_callback_with_disconnected _ client d hc
  have hempty : ∀ o ∈ (d.disconnected client).dnssd_backends, o.browsers = [] := by
    intro o ho
    simp only [Daemon.disconnected, List.mem_map] at ho
    obtain ⟨o1, _, rfl⟩ := ho
    rfl
  refine ⟨?_, fun hd => avahi_client_callback_lives client _ d hd, ?_⟩
  · intro d2 h2
    rw [heq] at h2
    cases hg : get_global_avahi_client (d.disconnected client) with
    | none =>
      rw [hg] at h2
      cases h2
    | some r =>
      rw [hg] at h2
      cases h2
      have hk := Daemon.Keeps.get_global_avahi_client (d.disconnected client) r hg
      refine ⟨?_, ?_, ?_⟩
      · exact map_store_of_remove_browsers _ _
          (hk.stores.trans (Daemon.Keeps.disconnected d client).stores)
      · exact hk.freed client (by simp [Daemon.disconnected])
      · exact get_global_avahi_client_calls_constructor (d.disconnected client) rfl r hg
  · intro hq
    obtain ⟨r, hr, hb⟩ := get_global_avahi_client_quiet (d.disconnected client) rfl hq
    refine ⟨r.2, ?_, ?_⟩
    · rw [heq, hr]
      rfl
    · rw [hb]
      exact hempty

theorem modify_backend_getElem? (d : Daemon) (k : Nat) (f : BackendObject → BackendObject) :
    (d.modify_backend k f).dnssd_backends[k]? = (d.dnssd_backends[k]?).map f := by
  unfold Daemon.modify_backend
  rw [List.getElem?_modify]
  cases d.dnssd_backends[k]? <;> simp

theorem job_failed_ne_succeeded (job : GVfsJob) (code : GIOErrorEnum) (message : String) :
    g_vfs_job_failed job code message ≠ g_vfs_job_succeeded job := by
  intro h
  have h2 := congrArg GVfsJob.reports h
  simp [g_vfs_job_failed, g_vfs_job_succeeded] at h2

/-- What try_mount does when the mount spec has no host. -/
theorem try_mount_no_host (k : Nat) (job : GVfsJob) (mount_spec : GMountSpec) (d : Daemon)
    (hh : g_mount_spec_get mount_spec "host".toList = none) :
    try_mount k job mount_spec d =
      some (d, g_vfs_job_failed job G_IO_ERROR_INVALID_ARGUMENT
        "No domain specified for dns-sd share") := by
  unfold try_mount
  simp only [hh]

/-- What try_mount does when the mount spec has a host and the process dies in
get_global_avahi_client. -/
theorem try_mount_dies (k : Nat) (job : GVfsJob) (mount_spec : GMountSpec) (d : Daemon)
    (domain : CString) (hh : g_mount_spec_get mount_spec "host".toList = some domain)
    (hg : get_global_avahi_client
      (d.modify_backend k (fun backend => { backend with domain := some domain })) = none) :
    try_mount k job mount_spec d = none := by
  unfold try_mount
  simp only [hh, hg]

/-- What try_mount does when the mount spec has a host and no client is
obtained. -/
theorem try_mount_no_client (k : Nat) (job : GVfsJob) (mount_spec : GMountSpec) (d : Daemon)
    (domain : CString) (d1 : Daemon)
    (hh : g_mount_spec_get mount_spec "host".toList = some domain)
    (hg : get_global_avahi_client
      (d.modify_backend k (fun backend => { backend with domain := some domain })) =
        some (none, d1)) :
    try_mount k job mount_spec d =
      some (d1, g_vfs_job_failed job G_IO_ERROR_FAILED "Unable to initialize avahi") := by
  unfold try_mount
  simp only [hh, hg, if_true]

/-- What try_mount does when the mount spec has a host and a client is
obtained. -/
theorem try_mount_client (k : Nat) (job : GVfsJob) (mount_spec : GMountSpec) (d : Daemon)
    (domain : CString) (client : AvahiClient) (d1 : Daemon)
    (hh : g_mount_spec_get mount_spec "host".toList = some domain)
    (hg : get_global_avahi_client
      (d.modify_backend k (fun backend => { backend with domain := some domain })) =
        some (some client, d1)) :
    try_mount k job mount_spec d =
      some (((d1.modify_backend k
          (fun backend =>
            { backend with
              mount_spec := some (g_mount_spec_set (g_mount_spec_new "dns-sd".toList)
                "host".toList domain) })).modify_backend k
          (fun backend => { backend with root_monitor := some g_vfs_monitor_new })),
        g_vfs_job_succeeded job) := by
  unfold try_mount
  simp only [hh, hg, reduceCtorEq, if_false]

/-- The outcome of try_mount in a process in which every other backend has its
domain. Without a host value the job fails with the code invalid argument and
the process is left as it is. With a host value get_global_avahi_client returns;
when it returns no client the job fails with the code failed and the root
monitor of every backend is as it was; when it returns a client the job succeeds
and the backend holds the given domain, a mount spec of type dns-sd for that
host and a new root monitor. -/
theorem try_mount_outcome_of_domains_set (k : Nat) (job : GVfsJob) (mount_spec : GMountSpec)
    (d : Daemon) (hk : k < d.dnssd_backends.length) :
    (g_mount_spec_get mount_spec "host".toList = none →
        try_mount k job mount_spec d =
          some (d, g_vfs_job_failed job G_IO_ERROR_INVALID_ARGUMENT
            "No domain specified for dns-sd share")) ∧
      ∀ domain, g_mount_spec_get mount_spec "host".toList = some domain →
        (d.modify_backend k
          (fun backend => { backend with domain := some domain })).domains_set = true →
        ∃ client d1,
          get_global_avahi_client
              (d.modify_backend k (fun backend => { backend with domain := some domain })) =
            some (client, d1) ∧
          (client = none →
            try_mount k job mount_spec d =
                some (d1, g_vfs_job_failed job G_IO_ERROR_FAILED
                  "Unable to initialize avahi") ∧
              d1.dnssd_backends.map (fun o => o.root_monitor) =
                d.dnssd_backends.map (fun o => o.root_monitor)) ∧
          (client ≠ none →
            ∃ d2 o, try_mount k job mount_spec d = some (d2, g_vfs_job_succeeded job) ∧
              d2.dnssd_backends[k]? = some o ∧
              o.domain = some domain ∧
              o.root_monitor = some g_vfs_monitor_new ∧
              o.mount_spec =
                some (g_mount_spec_set (g_mount_spec_new "dns-sd".toList) "host".toList
                  domain)) := by
  refine ⟨try_mount_no_host k job mount_spec d, ?_⟩
  intro domain hh hd
  obtain ⟨r, hr⟩ := get_global_avahi_client_lives _ hd
  rcases r with ⟨client, d1⟩
  have hkeep := (Daemon.Keeps.get_global_avahi_client _ _ hr).stores
  dsimp only at hkeep
  refine ⟨client, d1, hr, ?_, ?_⟩
  · intro hc
    subst hc
    refine ⟨try_mount_no_client k job mount_spec d domain d1 hh hr, ?_⟩
    have h2 := congrArg (List.map (fun o : BackendObject => o.root_monitor)) hkeep
    simp only [List.map_map, Daemon.modify_backend] at h2
    have h3 := map_modify_of_eq
      (fun o : BackendObject => o.root_monitor)
      (fun backend => { backend with domain := some domain }) (fun _ => rfl) k d.dnssd_backends
    rw [← h3]
    simpa [List.map_map, Function.comp_def, remove_browsers] using h2
  · intro hc
    obtain ⟨c, rfl⟩ := Option.ne_none_iff_exists'.mp hc
    have hget : (d.modify_backend k
        (fun backend => { backend with domain := some domain })).dnssd_backends[k]? =
        some { d.dnssd_backends[k] with domain := some domain } := by
      rw [modify_backend_getElem?, List.getElem?_eq_getElem hk]
      rfl
    obtain ⟨og, hog, hrb⟩ := (Daemon.Keeps.get_global_avahi_client _ _ hr).backend_at k _ hget
    dsimp only at hog
    obtain ⟨_, hdom, _, _⟩ := remove_browsers_eq _ og hrb
    refine ⟨_, { og with
      mount_spec := some (g_mount_spec_set (g_mount_spec_new "dns-sd".toList)
        "host".toList domain),
      root_monitor := some g_vfs_monitor_new },
      try_mount_client k job mount_spec d domain c d1 hh hr, ?_, hdom, rfl, rfl⟩
    rw [modify_backend_getElem?, modify_backend_getElem?, hog]
    rfl

/-- Claim C15, the code at the failing input. In the process sample_daemon a
backend is created and its mount is asked for with a mount spec that has no
host: try_mount fails the job with the code invalid argument and leaves the
process as it is, the backend still in dnssd_backends and without a domain. A
second backend is created and its mount is asked for with the host local: the
constructor reports the state running, avahi_client_callback calls add_browsers
for every backend of dnssd_backends, browse_type hands the NULL domain of the
first backend to strcmp, and the process dies: the job is neither failed nor
succeeded. Without the first backend the same mount succeeds. -/
theorem try_mount_dies_after_failed_mount :
    try_mount 0 ⟨[]⟩ (g_mount_spec_new "dns-sd".toList)
          (g_vfs_backend_dns_sd_init sample_daemon) =
        some (g_vfs_backend_dns_sd_init sample_daemon,
          g_vfs_job_failed ⟨[]⟩ G_IO_ERROR_INVALID_ARGUMENT
            "No domain specified for dns-sd share") ∧
      (g_vfs_backend_dns_sd_init (g_vfs_backend_dns_sd_init sample_daemon)).dnssd_backends.map
          (fun o => o.domain) = [none, none] ∧
      g_mount_spec_get (sample_mount_spec "local".toList) "host".toList =
        some "local".toList ∧
      try_mount 0 ⟨[]⟩ (sample_mount_spec "local".toList)
          (g_vfs_backend_dns_sd_init (g_vfs_backend_dns_sd_init sample_daemon)) = none ∧
      (try_mount 0 ⟨[]⟩ (sample_mount_spec "local".toList)
          (g_vfs_backend_dns_sd_init sample_daemon)).map (fun r => r.2) =
        some (g_vfs_job_succeeded ⟨[]⟩) := by
  decide!

/-- Claim C17, the code at the failing inputs. A first backend is created and
mounted; the constructor reports the state running while the client is opened,
so the connection is ready, and the backend gets its four browsers. A second
backend is then created and mounted: the mount succeeds and the client is
there, but the second backend holds no browser, because try_mount adds none and
no state change is notified. And when the state running is notified once more
for the first process, the browsers of its backend are added again and the
backend holds eight. Every browser creation succeeds throughout. -/
theorem ready_without_one_browser_per_type :
    sample_daemon.browser_new_script = [] ∧
      try_mount 0 ⟨[]⟩ (sample_mount_spec "local".toList)
          (g_vfs_backend_dns_sd_init sample_daemon) =
        some (sample_mounted, g_vfs_job_succeeded ⟨[]⟩) ∧
      sample_mounted.global_client = some sample_client ∧
      sample_mounted.dnssd_backends.map (fun o => o.browsers.map (fun sb => sb.type)) =
        [["_sftp-ssh._tcp".toList, "_webdavs._tcp".toList, "_webdav._tcp".toList,
          "_ftp._tcp".toList]] ∧
      try_mount 0 ⟨[]⟩ (sample_mount_spec "example.org".toList)
          (g_vfs_backend_dns_sd_init sample_mounted) =
        some (sample_two_mounted, g_vfs_job_succeeded ⟨[]⟩) ∧
      sample_two_mounted.global_client = some sample_client ∧
      sample_two_mounted.dnssd_backends.map
          (fun o => (o.domain, o.root_monitor, o.browsers.length)) =
        [(some "example.org".toList, some g_vfs_monitor_new, 0),
          (some "local".toList, some g_vfs_monitor_new, 4)] ∧
      (avahi_client_callback sample_client AvahiClientState.AVAHI_CLIENT_S_RUNNING
          sample_mounted).map (fun d => d.dnssd_backends.map (fun o => o.browsers.length)) =
        some [8] := by
  decide!

/-- Claim C18, refuted as stated: in a process with one mounted backend that
holds four browsers, a browse failure delivered to browse_callback leaves the
process as it is, whereas the client failure with the error disconnected removes
the browsers, frees the client and calls the constructor again. -/
theorem browse_failure_counterexample :
    browse_callback_at 0 sample_browse_failure sample_mounted = some sample_mounted ∧
      sample_mounted.dnssd_backends.map (fun o => o.browsers.length) = [4] ∧
      sample_mounted.client_new_calls = 1 ∧
      sample_mounted.freed_clients = [] ∧
      (avahi_client_callback sample_client_disconnected AvahiClientState.AVAHI_CLIENT_FAILURE
          sample_mounted).map (fun d => d.dnssd_backends.map (fun o => o.browsers.length)) =
        some [0] ∧
      (avahi_client_callback sample_client_disconnected AvahiClientState.AVAHI_CLIENT_FAILURE
          sample_mounted).map (fun d => d.client_new_calls) = some 2 ∧
      (avahi_client_callback sample_client_disconnected AvahiClientState.AVAHI_CLIENT_FAILURE
          sample_mounted).map (fun d => d.freed_clients) =
        some [sample_client_disconnected] := by
  decide!

/-- Claim C18, amended. A browse failure delivered to browse_callback is not
treated as a connection failure: browse_callback returns and the process is
exactly as before, so the entries, the monitor and the browsers of every
backend, the client handle, the clients freed and the number of constructor
calls are as they were; no browser is stopped, the client handle is kept and no
new session is attempted. -/
theorem browse_callback_at_failure (k : Nat) (e : BrowseEvent) (d : Daemon)
    (he : e.event = AvahiBrowserEvent.AVAHI_BROWSER_FAILURE) :
    browse_callback_at k e d = some d := by
  unfold browse_callback_at
  rw [he]
  dsimp only
  unfold Daemon.modify_backend
  rw [modify_eq_self]
  intro o _
  cases hm : o.mounted with
  | none => rfl
  | some b =>
    dsimp only
    have hb : browse_callback e b = b := by
      unfold browse_callback
      rw [he]
    rw [hb]
    exact put_mounted o b hm

/-- Witness of the amended claim C18: a browse failure in a process whose
backend holds four browsers. -/
theorem browse_callback_at_failure_witness :
    sample_browse_failure.event = AvahiBrowserEvent.AVAHI_BROWSER_FAILURE ∧
      browse_callback_at 0 sample_browse_failure sample_mounted = some sample_mounted :=
  ⟨rfl, browse_callback_at_failure 0 sample_browse_failure sample_mounted rfl⟩

/-- Claim C19, the code at the failing input. In a process that has not touched
Avahi yet the constructor fails at the first call and would succeed at the
second. The first call of get_global_avahi_client calls the constructor and
returns NULL; it leaves avahi_initialized set. The next call returns NULL again
and does not call the constructor: the count of constructor calls stays at one
and the script entry of the second constructor call is still unused. -/
theorem get_global_avahi_client_no_retry :
    (get_global_avahi_client
        { sample_daemon with
          client_new_script :=
            [⟨sample_client, [], some AvahiErrorCode.AVAHI_ERR_NO_MEMORY⟩,
              ⟨sample_client, [AvahiClientState.AVAHI_CLIENT_S_RUNNING], none⟩] }).map
        (fun r => (r.1, r.2.client_new_calls, r.2.avahi_initialized)) =
      some (none, 1, true) ∧
      ((get_global_avahi_client
          { sample_daemon with
            client_new_script :=
              [⟨sample_client, [], some AvahiErrorCode.AVAHI_ERR_NO_MEMORY⟩,
                ⟨sample_client, [AvahiClientState.AVAHI_CLIENT_S_RUNNING], none⟩] }).bind
          (fun r => get_global_avahi_client r.2)).map
        (fun r => (r.1, r.2.client_new_calls, r.2.client_new_script)) =
      some (none, 1, [⟨sample_client, [AvahiClientState.AVAHI_CLIENT_S_RUNNING], none⟩]) := by
  decide!

/-! ## Theorems: the depth of nested constructor calls -/

theorem foldlM_congr_script {α : Type} (n : Nat) (f1 f2 : Daemon → α → Option Daemon)
    (hagree : ∀ (d : Daemon) (a : α), d.client_new_script.length ≤ n → f1 d a = f2 d a)
    (hkeep : ∀ (d : Daemon) (a : α) (d2 : Daemon), f1 d a = some d2 → d.Keeps d2)
    (l : List α) (d : Daemon) (hd : d.client_new_script.length ≤ n) :
    l.foldlM f1 d = l.foldlM f2 d := by
  induction l generalizing d with
  | nil => rfl
  | cons a l ih =>
    rw [List.foldlM_cons, List.foldlM_cons, ← hagree d a hd]
    cases hf : f1 d a with
    | none => rfl
    | some d1 => exact ih d1 (Nat.le_trans (hkeep d a d1 hf).script hd)

theorem browse_type_with_congr (n : Nat)
    (g1 g2 : Daemon → Option (Option AvahiClient × Daemon))
    (hagree : ∀ d : Daemon, d.client_new_script.length ≤ n → g1 d = g2 d) (k : Nat)
    (type : CString) (d : Daemon) (hd : d.client_new_script.length ≤ n) :
    browse_type_with g1 k type d = browse_type_with g2 k type d := by
  unfold browse_type_with
  rw [hagree d hd]

theorem add_browsers_with_congr (n : Nat)
    (g1 g2 : Daemon → Option (Option AvahiClient × Daemon))
    (hagree : ∀ d : Daemon, d.client_new_script.length ≤ n → g1 d = g2 d)
    (hkeep : ∀ (d : Daemon) r, g1 d = some r → d.Keeps r.2) (k : Nat) (d : Daemon)
    (hd : d.client_new_script.length ≤ n) :
    add_browsers_with g1 k d = add_browsers_with g2 k d :=
  foldlM_congr_script n _ _
    (fun (d : Daemon) (row : DnsSdType) hd => browse_type_with_congr n g1 g2 hagree k row.type d hd)
    (fun (d : Daemon) (row : DnsSdType) d2 =>
      Daemon.Keeps.browse_type_with g1 hkeep k row.type d d2)
    dns_sd_types d hd

theorem avahi_client_callback_with_congr (n : Nat)
    (g1 g2 : Daemon → Option (Option AvahiClient × Daemon))
    (hagree : ∀ d : Daemon, d.client_new_script.length ≤ n → g1 d = g2 d)
    (hkeep : ∀ (d : Daemon) r, g1 d = some r → d.Keeps r.2) (client : AvahiClient)
    (state : AvahiClientState) (d : Daemon) (hd : d.client_new_script.length ≤ n) :
    avahi_client_callback_with g1 client state d =
      avahi_client_callback_with g2 client state d := by
  by_cases hs : state = AvahiClientState.AVAHI_CLIENT_FAILURE
  · subst hs
    by_cases hc : client.errno = AvahiErrorCode.AVAHI_ERR_DISCONNECTED
    · rw [avahi_client_callback_with_disconnected g1 client d hc,
        avahi_client_callback_with_disconnected g2 client d hc,
        hagree (d.disconnected client) hd]
    · unfold avahi_client_callback_with
      simp only [hc, if_true, if_false]
  · unfold avahi_client_callback_with
    simp only [hs, if_false]
    by_cases hr : state = AvahiClientState.AVAHI_CLIENT_S_RUNNING
    · simp only [hr, if_true]
      apply foldlM_congr_script n
      · intro d1 k hd1
        exact add_browsers_with_congr n g1 g2 hagree hkeep k d1 hd1
      · intro d1 k d2
        exact Daemon.Keeps.add_browsers_with g1 hkeep k d1 d2
      · split_ifs <;> exact hd
    · simp only [hr, if_false]

theorem avahi_client_new_congr (n : Nat)
    (cb1 cb2 : AvahiClient → AvahiClientState → Daemon → Option Daemon)
    (hagree : ∀ (client : AvahiClient) (state : AvahiClientState) (d : Daemon),
      d.client_new_script.length ≤ n → cb1 client state d = cb2 client state d)
    (hkeep : ∀ (client : AvahiClient) (state : AvahiClientState) (d d2 : Daemon),
      cb1 client state d = some d2 → d.Keeps d2)
    (d : Daemon) (hd : d.client_new_script.length ≤ n + 1) :
    avahi_client_new cb1 d = avahi_client_new cb2 d := by
  cases hs : d.client_new_script with
  | nil => rw [avahi_client_new_nil cb1 d hs, avahi_client_new_nil cb2 d hs]
  | cons outcome rest =>
    rw [avahi_client_new_cons cb1 d outcome rest hs, avahi_client_new_cons cb2 d outcome rest hs]
    rw [hs, List.length_cons] at hd
    rw [foldlM_congr_script n _ _
      (fun (d : Daemon) (state : AvahiClientState) hd => hagree outcome.client state d hd)
      (fun (d : Daemon) (state : AvahiClientState) d2 => hkeep outcome.client state d d2)
      outcome.notified _ (Nat.le_of_succ_le_succ hd)]

theorem get_global_avahi_client_with_congr (n : Nat)
    (new1 new2 : Daemon → Option (Option AvahiClient × Daemon))
    (hagree : ∀ d : Daemon, d.client_new_script.length ≤ n → new1 d = new2 d) (d : Daemon)
    (hd : d.client_new_script.length ≤ n) :
    get_global_avahi_client_with new1 d = get_global_avahi_client_with new2 d := by
  cases hi : d.avahi_initialized with
  | true =>
    rw [get_global_avahi_client_with_initialized new1 d hi,
      get_global_avahi_client_with_initialized new2 d hi]
  | false =>
    rw [get_global_avahi_client_with_uninitialized new1 d hi,
      get_global_avahi_client_with_uninitialized new2 d hi, hagree d.at_client_new hd]

/-- A depth that is at least the length of the script is enough: every greater
depth gives the same result. -/
theorem get_global_avahi_client_fuel_of_le (n : Nat) :
    ∀ (m : Nat) (d : Daemon), d.client_new_script.length ≤ n → n ≤ m →
      get_global_avahi_client_fuel m d = get_global_avahi_client_fuel n d := by
  induction n with
  | zero =>
    intro m d hd _
    cases m with
    | zero => rfl
    | succ m =>
      rw [get_global_avahi_client_fuel, get_global_avahi_client_fuel]
      apply get_global_avahi_client_with_congr 0 _ _ _ d hd
      intro d1 hd1
      exact avahi_client_new_nil _ d1 (List.length_eq_zero.mp (Nat.le_zero.mp hd1))
  | succ n ih =>
    intro m d hd hm
    cases m with
    | zero => exact absurd hm (Nat.not_succ_le_zero n)
    | succ m =>
      rw [get_global_avahi_client_fuel, get_global_avahi_client_fuel]
      apply get_global_avahi_client_with_congr (n + 1) _ _ _ d hd
      intro d1 hd1
      apply avahi_client_new_congr n _ _ _ _ d1 hd1
      · intro client state d2 hd2
        exact avahi_client_callback_with_congr n _ _
          (fun d3 hd3 => ih m d3 hd3 (Nat.le_of_succ_le_succ hm))
          (Daemon.Keeps.get_global_avahi_client_fuel m) client state d2 hd2
      · intro client state d2 d3
        exact Daemon.Keeps.avahi_client_callback_with _
          (Daemon.Keeps.get_global_avahi_client_fuel m) client state d2 d3

/-- The function get_global_avahi_client is the function with any depth that is
at least the length of the script. -/
theorem get_global_avahi_client_eq_fuel (m : Nat) (d : Daemon)
    (hm : d.client_new_script.length ≤ m) :
    get_global_avahi_client d = get_global_avahi_client_fuel m d :=
  (get_global_avahi_client_fuel_of_le _ m d (Nat.le_refl _) hm).symm

/-! ## Theorems: a failed constructor call is not repeated -/

theorem avahi_service_browser_new_initialized (client : Option AvahiClient) (type : CString)
    (domain : Option CString) (d : Daemon) :
    (avahi_service_browser_new client type domain d).2.avahi_initialized =
      d.avahi_initialized := by
  unfold avahi_service_browser_new
  cases client with
  | none => rfl
  | some c => cases d.browser_new_script <;> rfl

theorem browse_type_with_initialized (g : Daemon → Option (Option AvahiClient × Daemon))
    (hg : ∀ (d : Daemon) r, g d = some r → r.2.avahi_initialized = true) (k : Nat)
    (type : CString) (d d2 : Daemon) (h : browse_type_with g k type d = some d2) :
    d2.avahi_initialized = true := by
  unfold browse_type_with at h
  cases hgd : g d with
  | none =>
    rw [hgd] at h
    cases h
  | some r =>
    rcases r with ⟨client, d1⟩
    have h1 := hg d _ hgd
    rw [hgd] at h
    dsimp only at h h1
    cases hb : d1.dnssd_backends[k]? with
    | none =>
      rw [hb] at h
      cases h
      exact h1
    | some backend =>
      rw [hb] at h
      dsimp only at h
      cases hdom : backend.domain with
      | none =>
        rw [hdom] at h
        cases h
      | some name =>
        rw [hdom] at h
        dsimp only at h
        have hb := avahi_service_browser_new_initialized client type
          (if name ≠ "local".toList then some name else none) d1
        rcases hsb : avahi_service_browser_new client type
          (if name ≠ "local".toList then some name else none) d1 with ⟨sb, d3⟩
        rw [hsb] at hb h
        dsimp only at hb h
        cases sb with
        | none =>
          cases h
          exact hb.trans h1
        | some sb =>
          cases h
          exact hb.trans h1

theorem foldlM_initialized {α : Type} (f : Daemon → α → Option Daemon)
    (h : ∀ (d : Daemon) (a : α) (d2 : Daemon), d.avahi_initialized = true → f d a = some d2 →
      d2.avahi_initialized = true)
    (l : List α) (d d2 : Daemon) (hd : d.avahi_initialized = true)
    (hl : l.foldlM f d = some d2) : d2.avahi_initialized = true := by
  induction l generalizing d with
  | nil =>
    rw [List.foldlM_nil] at hl
    cases hl
    exact hd
  | cons a l ih =>
    rw [List.foldlM_cons] at hl
    cases hf : f d a with
    | none =>
      rw [hf] at hl
      cases hl
    | some d1 =>
      rw [hf] at hl
      exact ih d1 (h d a d1 hd hf) hl

theorem avahi_client_callback_with_initialized
    (g : Daemon → Option (Option AvahiClient × Daemon))
    (hg : ∀ (d : Daemon) r, g d = some r → r.2.avahi_initialized = true) (client : AvahiClient)
    (state : AvahiClientState) (d d2 : Daemon) (hd : d.avahi_initialized = true)
    (h : avahi_client_callback_with g client state d = some d2) :
    d2.avahi_initialized = true := by
  by_cases hs : state = AvahiClientState.AVAHI_CLIENT_FAILURE
  · subst hs
    by_cases hc : client.errno = AvahiErrorCode.AVAHI_ERR_DISCONNECTED
    · rw [avahi_client_callback_with_disconnected g client d hc] at h
      cases hgd : g (d.disconnected client) with
      | none =>
        rw [hgd] at h
        cases h
      | some r =>
        rw [hgd] at h
        cases h
        exact hg _ _ hgd
    · unfold avahi_client_callback_with at h
      simp only [hc, if_true, if_false] at h
      cases h
      split_ifs <;> exact hd
  · unfold avahi_client_callback_with at h
    simp only [hs, if_false] at h
    have h0 : (if d.global_client = none then { d with global_client := some client }
        else d).avahi_initialized = true := by
      split_ifs <;> exact hd
    by_cases hr : state = AvahiClientState.AVAHI_CLIENT_S_RUNNING
    · simp only [hr, if_true] at h
      refine foldlM_initialized _ ?_ _ _ _ h0 h
      intro d1 k d3 hd1 h3
      exact foldlM_initialized _
        (fun (d4 : Daemon) (row : DnsSdType) d5 _ h5 =>
          browse_type_with_initialized g hg k row.type d4 d5 h5)
        dns_sd_types d1 d3 hd1 h3
    · simp only [hr, if_false] at h
      cases h
      exact h0

/-- After a call of get_global_avahi_client the library is marked as
initialised and the client stored is the client returned. -/
theorem get_global_avahi_client_fuel_post (fuel : Nat) :
    ∀ (d : Daemon) r, get_global_avahi_client_fuel fuel d = some r →
      r.2.avahi_initialized = true ∧ r.2.global_client = r.1 := by
  induction fuel with
  | zero =>
    intro d r h
    rw [get_global_avahi_client_fuel] at h
    cases hi : d.avahi_initialized with
    | true =>
      rw [get_global_avahi_client_with_initialized _ d hi] at h
      cases h
      exact ⟨hi, rfl⟩
    | false =>
      rw [get_global_avahi_client_with_uninitialized _ d hi] at h
      cases h
      exact ⟨rfl, rfl⟩
  | succ fuel ih =>
    intro d r h
    rw [get_global_avahi_client_fuel] at h
    cases hi : d.avahi_initialized with
    | true =>
      rw [get_global_avahi_client_with_initialized _ d hi] at h
      cases h
      exact ⟨hi, rfl⟩
    | false =>
      rw [get_global_avahi_client_with_uninitialized _ d hi] at h
      cases hn : avahi_client_new
          (avahi_client_callback_with (get_global_avahi_client_fuel fuel)) d.at_client_new with
      | none =>
        rw [hn] at h
        cases h
      | some r1 =>
        rw [hn] at h
        cases h
        refine ⟨?_, rfl⟩
        show r1.2.avahi_initialized = true
        cases hs : d.at_client_new.client_new_script with
        | nil =>
          rw [avahi_client_new_nil _ _ hs] at hn
          cases hn
          rfl
        | cons outcome rest =>
          rw [avahi_client_new_cons _ _ outcome rest hs] at hn
          cases hf : List.foldlM
              (fun d state => avahi_client_callback_with (get_global_avahi_client_fuel fuel)
                outcome.client state d)
              ({ d.at_client_new with
                  client_new_calls := d.at_client_new.client_new_calls + 1,
                  client_new_script := rest } : Daemon) outcome.notified with
          | none =>
            rw [hf] at hn
            cases hn
          | some d2 =>
            rw [hf] at hn
            cases hn
            exact foldlM_initialized _
              (fun (d1 : Daemon) (state : AvahiClientState) d3 hd1 h3 =>
                avahi_client_callback_with_initialized _ (fun d4 r4 h4 => (ih d4 r4 h4).1)
                  outcome.client state d1 d3 hd1 h3)
              outcome.notified _ _ rfl hf

/-- A call of get_global_avahi_client that follows another one returns what the
first call returned and changes nothing; in particular, when the first call
returned NULL because the constructor failed, the second call returns NULL and
does not call the constructor. -/
theorem get_global_avahi_client_twice (d : Daemon) (r : Option AvahiClient × Daemon)
    (h : get_global_avahi_client d = some r) : get_global_avahi_client r.2 = some r := by
  have hpost := get_global_avahi_client_fuel_post d.client_new_script.length d r h
  rw [get_global_avahi_client_initialized _ hpost.1, hpost.2]

/-! ## Theorems: resolve results and the browser list -/

/-- The browser list has no part in what resolve_callback does. -/
theorem resolve_callback_browsers (snprint : Nat → AvahiAddress → CString) (r : ResolveResult)
    (b : GVfsBackendDnsSd) (bs : List AvahiServiceBrowser) :
    resolve_callback snprint r { b with browsers := bs } =
      { resolve_callback snprint r b with browsers := bs } := by
  have hpc : present { b with browsers := bs } r.name r.type = present b r.name r.type :=
    present_congr b { b with browsers := bs } rfl r.name r.type
  by_cases hd : r.dropped
  · rw [resolve_callback_dropped snprint r { b with browsers := bs } hd,
      resolve_callback_dropped snprint r b hd]
  · cases hp : present b r.name r.type with
    | true =>
      rw [resolve_callback_present snprint r b hp,
        resolve_callback_present snprint r { b with browsers := bs } (hpc.trans hp)]
    | false =>
      rw [resolve_callback_inserts snprint r b hd hp,
        resolve_callback_inserts snprint r { b with browsers := bs } hd (hpc.trans hp)]

/-- Claim C21, refuted as stated. A connected process holds one backend with one
entry; the client fails with the error disconnected, which empties the browser
list of the backend; a resolve result for another service then arrives. The
result is applied: the store holds two entries and a fourth monitor event is
emitted, the browser list being empty all along. The same happens on a backend
that never had a browser. -/
theorem resolve_after_browsers_stopped_counterexample :
    (avahi_client_callback sample_client_disconnected AvahiClientState.AVAHI_CLIENT_FAILURE
        sample_serving).map
        (fun d => d.dnssd_backends.map
          (fun o => (o.browsers, o.files.map (fun f => f.file_name),
            o.root_monitor.map (fun m => m.emitted.length)))) =
      some [([], ["Files._sftp-ssh._tcp".toList], some 3)] ∧
      (avahi_client_callback sample_client_disconnected AvahiClientState.AVAHI_CLIENT_FAILURE
        sample_serving).map
        (fun d => (resolve_callback_at sample_snprint 0 sample_resolve_other d).dnssd_backends.map
          (fun o => (o.browsers, o.files.map (fun f => f.file_name),
            o.root_monitor.map (fun m => m.emitted.length)))) =
      some [([], ["Other._sftp-ssh._tcp".toList, "Files._sftp-ssh._tcp".toList], some 4)] ∧
      sample_backend.browsers = [] ∧
      (resolve_callback sample_snprint sample_resolve_other sample_backend).files.map
        (fun f => f.file_name) = ["Other._sftp-ssh._tcp".toList] ∧
      (resolve_callback sample_snprint sample_resolve_other sample_backend).root_monitor.emitted =
        [⟨G_FILE_MONITOR_EVENT_CREATED, "/Other._sftp-ssh._tcp".toList, none⟩] := by
  refine ⟨?_, ?_, ?_, ?_, ?_⟩ <;> decide!

/-- Claim C21, amended. A resolve result that arrives when the browser list of
the backend is empty is handled like any other, resolve_callback not looking at
the browser list: the backend is left as it is, the store unchanged and no
monitor event emitted, if and only if the result is dropped (a resolver failure
or a link-local IPv6 address) or an entry with its name and type is stored;
otherwise the entry is put in front of the store and one created event is
emitted for its path, the browser list staying empty. -/
theorem resolve_callback_browsers_stopped (snprint : Nat → AvahiAddress → CString)
    (b : GVfsBackendDnsSd) (r : ResolveResult) (hb : b.browsers = []) :
    (resolve_callback snprint r b = b ↔ (r.dropped ∨ present b r.name r.type = true)) ∧
      ((¬ r.dropped ∧ present b r.name r.type = false) →
        (resolve_callback snprint r b).files =
            link_file_new snprint r.name r.type r.domain r.host_name r.protocol r.address
              r.port r.txt :: b.files ∧
          (resolve_callback snprint r b).root_monitor.emitted =
            b.root_monitor.emitted ++
              [⟨G_FILE_MONITOR_EVENT_CREATED, "/".toList ++ encode_filename r.name r.type,
                none⟩] ∧
          (resolve_callback snprint r b).browsers = []) := by
  constructor
  · constructor
    · intro heq
      by_contra hn
      rw [not_or] at hn
      have hp : present b r.name r.type = false := by
        cases h : present b r.name r.type with
        | true => exact absurd h hn.2
        | false => rfl
      rw [resolve_callback_inserts snprint r b hn.1 hp] at heq
      have hfiles := congrArg GVfsBackendDnsSd.files heq
      exact List.cons_ne_self _ _ hfiles
    · rintro (h | h)
      · exact resolve_callback_dropped snprint r b h
      · exact resolve_callback_present snprint r b h
  · rintro ⟨hd, hp⟩
    rw [resolve_callback_inserts snprint r b hd hp]
    exact ⟨rfl, rfl, hb⟩

/-- Witness of the amended claim C21: a backend without browsers. -/
theorem resolve_callback_browsers_stopped_witness :
    sample_backend.browsers = [] ∧
      ((resolve_callback sample_snprint sample_resolve_other sample_backend = sample_backend ↔
          (sample_resolve_other.dropped ∨
            present sample_backend sample_resolve_other.name sample_resolve_other.type = true)) ∧
        ((¬ sample_resolve_other.dropped ∧
            present sample_backend sample_resolve_other.name sample_resolve_other.type = false) →
          (resolve_callback sample_snprint sample_resolve_other sample_backend).files =
              link_file_new sample_snprint sample_resolve_other.name sample_resolve_other.type
                sample_resolve_other.domain sample_resolve_other.host_name
                sample_resolve_other.protocol sample_resolve_other.address
                sample_resolve_other.port sample_resolve_other.txt :: sample_backend.files ∧
            (resolve_callback sample_snprint sample_resolve_other
                sample_backend).root_monitor.emitted =
              sample_backend.root_monitor.emitted ++
                [⟨G_FILE_MONITOR_EVENT_CREATED,
                  "/".toList ++
                    encode_filename sample_resolve_other.name sample_resolve_other.type,
                  none⟩] ∧
            (resolve_callback sample_snprint sample_resolve_other sample_backend).browsers =
              [])) :=
  ⟨rfl, resolve_callback_browsers_stopped sample_snprint sample_backend sample_resolve_other rfl⟩

/-! ## Theorems: every entry is reached by its name -/

theorem table_types_no_slash : ∀ t ∈ table_types, '/' ∉ t := by
  decide

theorem encode_filename_ne_nil (name type : CString) : encode_filename name type ≠ [] := by
  rw [encode_filename_eq]
  simp

theorem slash_not_mem_encode_filename (name type : CString) (h : '/' ∉ type) :
    '/' ∉ encode_filename name type := by
  rw [encode_filename_eq]
  have := slash_not_mem_spec_escape_name name
  simp_all

theorem NamedInv.of_empty (b : GVfsBackendDnsSd) (hf : b.files = []) : NamedInv b where
  file_names := by simp [hf]
  types := by simp [hf]
  nodup := by simp [hf]

/-- A delivery whose type is a type of the static table keeps the invariant. -/
theorem NamedInv.of_deliver (snprint : Nat → AvahiAddress → CString) (d : Delivery)
    (b : GVfsBackendDnsSd) (ht : d.service_type ∈ table_types) (inv : NamedInv b) :
    NamedInv (deliver snprint b d) := by
  refine ⟨?_, ?_, keys_nodup_deliver snprint d b inv.nodup⟩
  · cases d with
    | resolve r =>
      simp only [DnsSd.deliver]
      by_cases hd : r.dropped
      · rw [resolve_callback_dropped snprint r b hd]
        exact inv.file_names
      · cases hp : present b r.name r.type with
        | true =>
          rw [resolve_callback_present snprint r b hp]
          exact inv.file_names
        | false =>
          rw [resolve_callback_inserts snprint r b hd hp]
          intro f hf
          rcases List.mem_cons.mp hf with h | h
          · rw [h]
            rfl
          · exact inv.file_names f h
    | browse e =>
      simp only [DnsSd.deliver, browse_callback]
      split
      · exact inv.file_names
      · exact inv.file_names
      · split
        · intro f hf
          exact inv.file_names f (List.mem_of_mem_erase hf)
        · exact inv.file_names
      · exact inv.file_names
      · exact inv.file_names
  · cases d with
    | resolve r =>
      simp only [DnsSd.deliver]
      by_cases hd : r.dropped
      · rw [resolve_callback_dropped snprint r b hd]
        exact inv.types
      · cases hp : present b r.name r.type with
        | true =>
          rw [resolve_callback_present snprint r b hp]
          exact inv.types
        | false =>
          rw [resolve_callback_inserts snprint r b hd hp]
          intro f hf
          rcases List.mem_cons.mp hf with h | h
          · rw [h]
            exact ht
          · exact inv.types f h
    | browse e =>
      simp only [DnsSd.deliver, browse_callback]
      split
      · exact inv.types
      · exact inv.types
      · split
        · intro f hf
          exact inv.types f (List.mem_of_mem_erase hf)
        · exact inv.types
      · exact inv.types
      · exact inv.types

theorem NamedInv.of_deliver_all (snprint : Nat → AvahiAddress → CString) (ds : List Delivery)
    (b : GVfsBackendDnsSd) (ht : ∀ d ∈ ds, d.service_type ∈ table_types) (inv : NamedInv b) :
    NamedInv (deliver_all snprint b ds) := by
  induction ds generalizing b with
  | nil => exact inv
  | cons d ds ih =>
    exact ih _ (fun d2 h2 => ht d2 (List.mem_cons_of_mem _ h2))
      (inv.of_deliver snprint d b (ht d (List.mem_cons_self _ _)))

/-- In a list of entries that are named by the encoding of their keys and have
pairwise different keys, the search for the file name of an entry finds that
entry. -/
theorem find_file_name_self (l : List LinkFile)
    (hn : ∀ f ∈ l, f.file_name = encode_filename f.name f.type)
    (hnd : (l.map LinkFile.key).Nodup) (e : LinkFile) (he : e ∈ l) :
    l.find? (fun file => file.file_name = e.file_name) = some e := by
  induction l with
  | nil => simp at he
  | cons a l ih =>
    rw [List.map_cons, List.nodup_cons] at hnd
    by_cases ha : a.file_name = e.file_name
    · rw [List.find?_cons_of_pos _ (by simpa using ha)]
      rcases List.mem_cons.mp he with h | h
      · rw [h]
      · exfalso
        have hk : a.key = e.key := by
          have h1 := hn a (List.mem_cons_self _ _)
          have h2 := hn e he
          rw [h1, h2, encode_filename_eq, encode_filename_eq] at ha
          obtain ⟨hname, htype⟩ := spec_escape_name_sep_inj _ _ _ _ ha
          simp [LinkFile.key, hname, htype]
        exact hnd.1 (hk ▸ List.mem_map_of_mem _ h)
    · rw [List.find?_cons_of_neg _ (by simpa using ha)]
      rcases List.mem_cons.mp he with h | h
      · exact absurd (h ▸ rfl) ha
      · exact ih (fun f hf => hn f (List.mem_cons_of_mem _ hf)) hnd.2 h

/-- Under the invariant the lookup of the path of an entry returns that entry
and does not fail the job. -/
theorem NamedInv.lookup_link_file (b : GVfsBackendDnsSd) (inv : NamedInv b) (job : GVfsJob)
    (e : LinkFile) (he : e ∈ b.files) :
    lookup_link_file b job ("/".toList ++ e.file_name) = (LinkFilePtr.file e, job) := by
  have hn := inv.file_names e he
  have hne : e.file_name ≠ [] := by
    rw [hn]
    exact encode_filename_ne_nil _ _
  have hns : '/' ∉ e.file_name := by
    rw [hn]
    exact slash_not_mem_encode_filename _ _ (table_types_no_slash _ (inv.types e he))
  rw [lookup_link_file_segment b job e.file_name hne hns,
    find_file_name_self b.files inv.file_names inv.nodup e he]

/-- Claim C22. For every store reached from a store with no entry by resolve
results and browse events whose service types are types of the static table, and
for every entry of it: the file name of the entry is encode_filename of its name
and type, and lookup_link_file on a slash followed by that file name returns the
entry itself, not the root, not another entry and not NULL, and reports no
failure on the job. -/
theorem stored_entry_reached_by_name (snprint : Nat → AvahiAddress → CString)
    (b : GVfsBackendDnsSd) (hf : b.files = []) (ds : List Delivery)
    (ht : ∀ d ∈ ds, d.service_type ∈ table_types) (job : GVfsJob) :
    ∀ e ∈ (deliver_all snprint b ds).files,
      e.file_name = encode_filename e.name e.type ∧
        lookup_link_file (deliver_all snprint b ds) job ("/".toList ++ e.file_name) =
          (LinkFilePtr.file e, job) := by
  intro e he
  have inv := NamedInv.of_deliver_all snprint ds b ht (NamedInv.of_empty b hf)
  exact ⟨inv.file_names e he, inv.lookup_link_file _ job e he⟩

/-- Witness of claim C22: a service resolved twice, removed and resolved again. -/
theorem stored_entry_reached_by_name_witness :
    sample_backend.files = [] ∧
      (∀ d ∈ sample_deliveries, d.service_type ∈ table_types) ∧
      ∀ e ∈ (deliver_all sample_snprint sample_backend sample_deliveries).files,
        e.file_name = encode_filename e.name e.type ∧
          lookup_link_file (deliver_all sample_snprint sample_backend sample_deliveries) ⟨[]⟩
              ("/".toList ++ e.file_name) =
            (LinkFilePtr.file e, ⟨[]⟩) :=
  ⟨rfl, by decide,
    stored_entry_reached_by_name sample_snprint sample_backend rfl sample_deliveries
      (by decide) ⟨[]⟩⟩

end DnsSd
